import Mathlib

/-!
Verification of the vn2inventory core: a shallow embedding in Lean 4 of the
order-decision policy (`policy.py`), the demand aggregation fallback
(`data_io.py`) and the weekly inventory simulator (`sim_env.py`).

Modelling conventions:
* Python floats are embedded as exact rationals (`ℚ`); decimal literals in the
  source become the corresponding exact decimal rationals.
* `math.sqrt` and `math.log` are irrational-valued, so they are abstracted as
  function parameters `sq lg : ℚ → ℚ` (resp. a precomputed value `sqrtP` for
  the single call `math.sqrt(protection_weeks)`); theorems quantify over them
  or constrain them by properties that the real functions satisfy.
* Per-key pandas Series are embedded as total functions `K → ℚ`; `reindex` +
  `fillna(0)` corresponds to totality with default 0.  Population-wide sums
  run over an explicit key list.
* A Python exception (e.g. `IndexError` past the last demand period, or the
  `ValueError` on an empty date list) is modelled by `Option`/`none`.
-/

set_option maxRecDepth 16000

/-! ## Quantile approximator (`policy.py`, `_inv_normal_cdf`) -/

/-- Low-tail breakpoint `plow = 0.02425` of Acklam's approximation. -/
def plow : ℚ := 0.02425

/-- High-tail breakpoint `phigh = 1 - plow`. -/
def phigh : ℚ := 1 - plow

/-- Numerator of the tail rational approximation: Horner form of the `c`
coefficients of `_inv_normal_cdf`. -/
def tailNum (q : ℚ) : ℚ :=
  ((((-0.007784894002430293 * q + -0.3223964580411365) * q + -2.400758277161838) * q +
      -2.549732539343734) * q + 4.374664141464968) * q + 2.938163982698783

/-- Denominator of the tail rational approximation: Horner form of the `d`
coefficients of `_inv_normal_cdf`. -/
def tailDen (q : ℚ) : ℚ :=
  (((0.007784695709041462 * q + 0.3224671290700398) * q + 2.445134137142996) * q +
      3.754408661907416) * q + 1

/-- The tail expression of `_inv_normal_cdf`, as a function of
`q = sqrt(-2 * log p)` (low tail) resp. `q = sqrt(-2 * log (1-p))` (negated,
high tail). -/
def tailExpr (q : ℚ) : ℚ := tailNum q / tailDen q

/-- Numerator polynomial (in `r = q^2`) of the central rational approximation:
Horner form of the `a` coefficients of `_inv_normal_cdf`. -/
def centralNum (r : ℚ) : ℚ :=
  ((((-39.69683028665376 * r + 220.9460984245205) * r + -275.9285104469687) * r +
      138.3577518672690) * r + -30.66479806614716) * r + 2.506628277459239

/-- Denominator polynomial (in `r = q^2`) of the central rational
approximation: Horner form of the `b` coefficients of `_inv_normal_cdf`. -/
def centralDen (r : ℚ) : ℚ :=
  ((((-54.47609879822406 * r + 161.5858368580409) * r + -155.6989798598866) * r +
      66.80131188771972) * r + -13.28068155288572) * r + 1

/-- The central-region expression of `_inv_normal_cdf`: with `q = p - 0.5` and
`r = q*q`, returns `(centralNum r * q) / centralDen r`. -/
def centralExpr (p : ℚ) : ℚ :=
  (centralNum ((p - 1/2) * (p - 1/2)) * (p - 1/2)) / centralDen ((p - 1/2) * (p - 1/2))

/-- Embedding of `_inv_normal_cdf`.  The float infinities returned by the
source for `p ≤ 0` / `p ≥ 1` are modelled as `none`.  `sq` and `lg` embed
`math.sqrt` and `math.log`, which only enter through the tail branches via
`q = sq (-2 * lg p)`. -/
def invNormalCdf (sq lg : ℚ → ℚ) (p : ℚ) : Option ℚ :=
  if p ≤ 0 then none
  else if 1 ≤ p then none
  else if p < plow then some (tailExpr (sq (-2 * lg p)))
  else if phigh < p then some (-(tailExpr (sq (-2 * lg (1 - p)))))
  else some (centralExpr p)

/-- The rational value of the quantile approximator on `(0,1)` (where the
source never returns an infinity). -/
def quantileD (sq lg : ℚ → ℚ) (p : ℚ) : ℚ := (invNormalCdf sq lg p).getD 0

/-! ## Base-stock policy (`policy.py`, `compute_base_stock_levels` and
`compute_orders`), per key -/

/-- Policy parameters of `compute_base_stock_levels` / `compute_orders`. -/
structure PolicyParams where
  lead_time_weeks : ℤ
  review_period_weeks : ℤ
  shortage_cost_per_unit : ℚ
  holding_cost_per_unit_per_week : ℚ
  min_service_level : Option ℚ
  max_order_per_item : Option ℚ

/-- `protection_weeks = lead_time_weeks + review_period_weeks`. -/
def protectionWeeks (pp : PolicyParams) : ℤ :=
  pp.lead_time_weeks + pp.review_period_weeks

/-- `co_effective = holding_cost_per_unit_per_week * max(protection_weeks, 0) / 2.0`. -/
def coEffective (pp : PolicyParams) : ℚ :=
  pp.holding_cost_per_unit_per_week * ((max (protectionWeeks pp) 0 : ℤ) : ℚ) / 2

/-- `cu = max(shortage_cost_per_unit, 1e-9)`. -/
def cuOf (pp : PolicyParams) : ℚ := max pp.shortage_cost_per_unit 0.000000001

/-- `co = max(co_effective, 1e-12)`. -/
def coOf (pp : PolicyParams) : ℚ := max (coEffective pp) 0.000000000001

/-- The service level after the optional `min_service_level` floor and the
clamp into `[1e-6, 1 - 1e-6]`. -/
def serviceLevel (pp : PolicyParams) : ℚ :=
  let s0 := cuOf pp / (cuOf pp + coOf pp)
  let s1 := match pp.min_service_level with
    | some m => max s0 m
    | none => s0
  min (max s1 0.000001) (1 - 0.000001)

/-- `z = _inv_normal_cdf(service_level)`.  The clamp keeps the service level
inside `(0,1)`, so the source value is finite and `getD 0` is never hit. -/
def zscore (sq lg : ℚ → ℚ) (pp : PolicyParams) : ℚ :=
  (invNormalCdf sq lg (serviceLevel pp)).getD 0

/-- Per-key base stock of `compute_base_stock_levels`:
`max(0, clip(mean,0) * P + z * (clip(std,0) * sqrt(P)))`, with `sqrtP`
embedding the value `math.sqrt(protection_weeks)`. -/
def baseStock (sq lg : ℚ → ℚ) (sqrtP : ℚ) (pp : PolicyParams) (mean std : ℚ) : ℚ :=
  max (max mean 0 * ((protectionWeeks pp : ℤ) : ℚ) +
       zscore sq lg pp * (max std 0 * sqrtP)) 0

/-- `inventory_position = clip(on_hand, 0) + clip(on_order, 0)` (`compute_orders`). -/
def inventoryPosition (on_hand on_order : ℚ) : ℚ := max on_hand 0 + max on_order 0

/-- Per-key raw order of `compute_orders`: `clip(base - position, 0)`, then
clipped from above by `max_order_per_item` when set. -/
def rawOrder (base ip : ℚ) (cap : Option ℚ) : ℚ :=
  let r := max (base - ip) 0
  match cap with
  | some c => min r c
  | none => r

/-- `np.rint`: round half to even, the final step of `compute_orders`. -/
def rint (x : ℚ) : ℤ :=
  if x - ⌊x⌋ < 1/2 then ⌊x⌋
  else if 1/2 < x - ⌊x⌋ then ⌊x⌋ + 1
  else if (⌊x⌋ : ℤ) % 2 = 0 then ⌊x⌋ else ⌊x⌋ + 1

/-- Per-key order quantity of `compute_orders` (`orders = np.rint(raw).astype(int)`). -/
def computeOrder (sq lg : ℚ → ℚ) (sqrtP : ℚ) (pp : PolicyParams)
    (mean std on_hand on_order : ℚ) : ℤ :=
  rint (rawOrder (baseStock sq lg sqrtP pp mean std)
    (inventoryPosition on_hand on_order) pp.max_order_per_item)

/-! ## Demand aggregation (`data_io.py`, `load_sales_history`), per key -/

/-- Mean of the weekly sales values of one `(store, product)` key. -/
def meanOf (xs : List ℚ) : ℚ := xs.sum / (xs.length : ℚ)

/-- Sample standard deviation (`ddof = 1`), `none` when pandas would yield
`NaN` (fewer than two observations); `sq` embeds the square root. -/
def sampleStd (sq : ℚ → ℚ) (xs : List ℚ) : Option ℚ :=
  if xs.length ≤ 1 then none
  else some (sq ((xs.map (fun x => (x - meanOf xs) * (x - meanOf xs))).sum /
      ((xs.length : ℚ) - 1)))

/-- Per-key demand statistics produced by `load_sales_history`. -/
structure DemandStats where
  mean_demand : ℚ
  std_demand : ℚ
  observations : ℕ

/-- Aggregation of one key's weekly sales values: mean, sample std with the
`fillna` fallback `clip(mean, 0) ** 0.5` (the `sq` parameter embeds both
`math.sqrt` and `pow 0.5`), and the observation count. -/
def aggregateKey (sq : ℚ → ℚ) (xs : List ℚ) : DemandStats :=
  { mean_demand := meanOf xs
    std_demand := (sampleStd sq xs).getD (sq (max (meanOf xs) 0))
    observations := xs.length }

/-! ## Simulator (`sim_env.py`) -/

/-- Cost parameters of the simulator (`Costs`). -/
structure Costs where
  holding_per_unit : ℚ
  shortage_per_unit : ℚ

/-- Per-key simulator state plus the two scalar accumulators (`SimState`). -/
structure SimState (K : Type) where
  end_inventory : K → ℚ
  in_transit_w1 : K → ℚ
  in_transit_w2 : K → ℚ
  cumulative_holding : ℚ
  cumulative_shortage : ℚ

/-- An initial-state snapshot table.  The optional fields model the columns
`In Transit W+1` / `W+2` (default 0 per key) and the cumulative cost columns
(summed population-wide, default sum 0), as in `InventorySim.__init__` /
`reset_to`. -/
structure Snapshot (K : Type) where
  end_inventory : K → ℚ
  in_transit_w1 : Option (K → ℚ)
  in_transit_w2 : Option (K → ℚ)
  cum_holding_col : Option (List ℚ)
  cum_shortage_col : Option (List ℚ)

/-- `SimState` built from a snapshot (shared by `__init__` and `reset_to`). -/
def initState {K : Type} (snap : Snapshot K) : SimState K :=
  { end_inventory := snap.end_inventory
    in_transit_w1 := snap.in_transit_w1.getD (fun _ => 0)
    in_transit_w2 := snap.in_transit_w2.getD (fun _ => 0)
    cumulative_holding := (snap.cum_holding_col.getD []).sum
    cumulative_shortage := (snap.cum_shortage_col.getD []).sum }

/-- The simulator (`InventorySim`): canonical key list, one demand vector per
date (`sales[dates[t]]`), costs, mutable state and the clock `t`. -/
structure InventorySim (K : Type) where
  keys : List K
  demand : List (K → ℚ)
  costs : Costs
  state : SimState K
  t : ℕ

/-- `InventorySim.__init__`: fails (`ValueError`) when the date list is
empty, otherwise starts at `t = 0` from the snapshot state. -/
def mkSim {K : Type} (keys : List K) (demand : List (K → ℚ)) (costs : Costs)
    (snap : Snapshot K) : Option (InventorySim K) :=
  if demand.isEmpty then none
  else some { keys := keys, demand := demand, costs := costs,
              state := initState snap, t := 0 }

/-- The metrics record returned by `InventorySim.step`. -/
structure StepMetrics where
  holding_cost : ℚ
  shortage_cost : ℚ
  round_cost : ℚ
  cumulative_cost : ℚ
  t : ℕ
  done : Bool

/-- Population-wide sum of a per-key series (`.sum()` over the index). -/
def keySum {K : Type} (keys : List K) (f : K → ℚ) : ℚ := (keys.map f).sum

/-- `InventorySim.step`.  The demand lookup `sales[dates[t]]` happens before
any state is written; past the last period it raises (`IndexError`), modelled
as `none` with the simulator value unchanged. -/
def InventorySim.step {K : Type} (sim : InventorySim K) (orders : K → ℚ) :
    Option (InventorySim K × StepMetrics) :=
  match sim.demand[sim.t]? with
  | none => none
  | some demand =>
    let orders' : K → ℚ := fun k => max (orders k) 0
    let start_inventory : K → ℚ :=
      fun k => sim.state.end_inventory k + sim.state.in_transit_w1 k
    let sales : K → ℚ := fun k => min (start_inventory k) (demand k)
    let missed : K → ℚ := fun k => demand k - sales k
    let end_inventory : K → ℚ := fun k => start_inventory k - sales k
    let holding_cost := keySum sim.keys (fun k => end_inventory k * sim.costs.holding_per_unit)
    let shortage_cost := keySum sim.keys (fun k => missed k * sim.costs.shortage_per_unit)
    let st : SimState K :=
      { end_inventory := end_inventory
        in_transit_w1 := sim.state.in_transit_w2
        in_transit_w2 := orders'
        cumulative_holding := sim.state.cumulative_holding + holding_cost
        cumulative_shortage := sim.state.cumulative_shortage + shortage_cost }
    some ({ sim with state := st, t := sim.t + 1 },
      { holding_cost := holding_cost
        shortage_cost := shortage_cost
        round_cost := holding_cost + shortage_cost
        cumulative_cost := st.cumulative_holding + st.cumulative_shortage
        t := sim.t + 1
        done := decide (sim.demand.length ≤ sim.t + 1) })

/-- `InventorySim.inventory_position`: per key, end inventory plus both
in-transit stages. -/
def InventorySim.invPosition {K : Type} (sim : InventorySim K) : K → ℚ :=
  fun k => sim.state.end_inventory k + sim.state.in_transit_w1 k + sim.state.in_transit_w2 k

/-- `InventorySim.reset_to`: replace the whole state from a fresh snapshot and
reset the clock; keys, demand sequence and costs are untouched. -/
def InventorySim.resetTo {K : Type} (sim : InventorySim K) (snap : Snapshot K) :
    InventorySim K :=
  { sim with state := initState snap, t := 0 }

/-- A sequence of `step` calls, collecting the per-step metrics; `none` as
soon as one call fails. -/
def runSteps {K : Type} (sim : InventorySim K) :
    List (K → ℚ) → Option (InventorySim K × List StepMetrics)
  | [] => some (sim, [])
  | o :: rest =>
    (sim.step o).bind fun pr =>
      (runSteps pr.1 rest).map fun pr2 => (pr2.1, pr.2 :: pr2.2)

/-- The per-key total position recorded in a snapshot: end inventory plus both
in-transit stages (missing columns count as 0). -/
def snapshotPosition {K : Type} (snap : Snapshot K) : K → ℚ :=
  fun k => snap.end_inventory k + (snap.in_transit_w1.getD (fun _ => 0)) k +
    (snap.in_transit_w2.getD (fun _ => 0)) k

/-! ## Positivity certificates for the quantile approximation

`qstar` is a rational lower bound of `sqrt(-2 * ln plow) = 2.7273938701986…`,
the infimum of `q` over the low-tail branch.  The `Wcert`/`Bcert`/`Scert`
polynomials are exact Bernstein-style certificates: each is a combination of
manifestly nonnegative terms that equals (after clearing denominators) the
two-point difference polynomial of a branch of the approximation, proving the
branch strictly monotone on its region. -/

def qstar : ℚ := 2.7273938701

/-- Bernstein-row polynomial in the positivity certificate for the
central-region monotonicity of the quantile approximation. -/
def WcertRow0 (s t : ℚ) : ℚ :=
    ((1562212523279439178945185699033022270026537084720213553888923467239684545224876528852847 : ℚ) / 17179869184000000000000000000000000000000000000000000000000000000000000000000000000000000000) * s ^ 0 * t ^ 10 +
    ((58739374699467993460364985370187651312458092462922482056110745536525685563411736754486640619421 : ℚ) / 8589934592000000000000000000000000000000000000000000000000000000000000000000000000000000000000000) * s ^ 1 * t ^ 9 +
    ((23052689205301037732343171337349850090359233005638872498262644226404982444964683500840767 : ℚ) / 171798691840000000000000000000000000000000000000000000000000000000000000000000000000000000) * s ^ 2 * t ^ 8 +
    ((2161223031683467513148746460061582538870655641511228241662550132222236044066625435656674910858263 : ℚ) / 2147483648000000000000000000000000000000000000000000000000000000000000000000000000000000000000000) * s ^ 3 * t ^ 7 +
    ((26682956980017639914180907083195698750040384557403773721927872421814865183423724756168539089 : ℚ) / 8589934592000000000000000000000000000000000000000000000000000000000000000000000000000000000) * s ^ 4 * t ^ 6 +
    ((86445582619085775435172104327228548051419638989826610939575863186458163116135183747554497625023523 : ℚ) / 21474836480000000000000000000000000000000000000000000000000000000000000000000000000000000000000000) * s ^ 5 * t ^ 5 +
    ((9424705665784147092019514966517419226108892177981302720648163719503091484312525414819314651 : ℚ) / 4294967296000000000000000000000000000000000000000000000000000000000000000000000000000000000) * s ^ 6 * t ^ 4 +
    ((1087787823561208267377535785863736329393000367423364980047814295639012027949433374685791992858263 : ℚ) / 2147483648000000000000000000000000000000000000000000000000000000000000000000000000000000000000000) * s ^ 7 * t ^ 3 +
    ((844552649166718802225814926384504854570232950444052737275896713374789487597705210013049831 : ℚ) / 17179869184000000000000000000000000000000000000000000000000000000000000000000000000000000000) * s ^ 8 * t ^ 2 +
    ((15232168405254138907674220420049943326066844793149691002465448870649858175266065685898028619421 : ℚ) / 8589934592000000000000000000000000000000000000000000000000000000000000000000000000000000000000000) * s ^ 9 * t ^ 1

def WcertRow1 (s t : ℚ) : ℚ :=
    ((58739374699467993460364985370187651312458092462922482056110745536525685563411736754486640619421 : ℚ) / 8589934592000000000000000000000000000000000000000000000000000000000000000000000000000000000000000) * s ^ 0 * t ^ 10 +
    ((3772729536259968379447076255393105285766656361457285788052412093365285312190716500785684487 : ℚ) / 8589934592000000000000000000000000000000000000000000000000000000000000000000000000000000000) * s ^ 1 * t ^ 9 +
    ((15001415250586082132415778689035355057250389485778492288061220910862636698729631466771946055974789 : ℚ) / 1717986918400000000000000000000000000000000000000000000000000000000000000000000000000000000000000) * s ^ 2 * t ^ 8 +
    ((144994703285703010146358891394621797302324191869022461041486401311679716048823664530366020653 : ℚ) / 2147483648000000000000000000000000000000000000000000000000000000000000000000000000000000000) * s ^ 3 * t ^ 7 +
    ((184012120517519509051234862191156594866529058075009075632325404282015789066544653772458865384207841 : ℚ) / 858993459200000000000000000000000000000000000000000000000000000000000000000000000000000000000000) * s ^ 4 * t ^ 6 +
    ((1217573256861367327011629523062721980128182772343699188564832825222594644329059822158468529493 : ℚ) / 4294967296000000000000000000000000000000000000000000000000000000000000000000000000000000000) * s ^ 5 * t ^ 5 +
    ((134760896726458729185629349163035637578899705177672136223819885380404135284831918689509993213807841 : ℚ) / 858993459200000000000000000000000000000000000000000000000000000000000000000000000000000000000000) * s ^ 6 * t ^ 4 +
    ((78785089440356374457212006571467253112055124506443959565167707167832504695593954344341083997 : ℚ) / 2147483648000000000000000000000000000000000000000000000000000000000000000000000000000000000) * s ^ 7 * t ^ 3 +
    ((6257383554058170045700468087481941912343409601141019701836904271511228007774354182035167551174789 : ℚ) / 1717986918400000000000000000000000000000000000000000000000000000000000000000000000000000000000000) * s ^ 8 * t ^ 2 +
    ((1260777919997502286291135842509723052508995060967249364489445522898249848249446486806393383 : ℚ) / 8589934592000000000000000000000000000000000000000000000000000000000000000000000000000000000) * s ^ 9 * t ^ 1 +
    ((15232168405254138907674220420049943326066844793149691002465448870649858175266065685898028619421 : ℚ) / 8589934592000000000000000000000000000000000000000000000000000000000000000000000000000000000000000) * s ^ 10 * t ^ 0

def WcertRow2 (s t : ℚ) : ℚ :=
    ((23052689205301037732343171337349850090359233005638872498262644226404982444964683500840767 : ℚ) / 171798691840000000000000000000000000000000000000000000000000000000000000000000000000000000) * s ^ 0 * t ^ 10 +
    ((15001415250586082132415778689035355057250389485778492288061220910862636698729631466771946055974789 : ℚ) / 1717986918400000000000000000000000000000000000000000000000000000000000000000000000000000000000000) * s ^ 1 * t ^ 9 +
    ((3113799993575037432177672120004357710360897753295795662578793009819538560354166725480362049039 : ℚ) / 17179869184000000000000000000000000000000000000000000000000000000000000000000000000000000000) * s ^ 2 * t ^ 8 +
    ((630234176356042566346893089610299267855062113380532225377127481617483340731876622913437562321324367 : ℚ) / 429496729600000000000000000000000000000000000000000000000000000000000000000000000000000000000000) * s ^ 3 * t ^ 7 +
    ((20794793117099823090339438904130991758417725441092020079886620908845447391688468773914689681381 : ℚ) / 4294967296000000000000000000000000000000000000000000000000000000000000000000000000000000000) * s ^ 4 * t ^ 6 +
    ((28336836541973027529567504940455107732339324367451652730931971269470997069015224347089539903521211707 : ℚ) / 4294967296000000000000000000000000000000000000000000000000000000000000000000000000000000000000000) * s ^ 5 * t ^ 5 +
    ((31998450743857866451033357366415403487325207780323016656982267230913439039515742899663439798513 : ℚ) / 8589934592000000000000000000000000000000000000000000000000000000000000000000000000000000000) * s ^ 6 * t ^ 4 +
    ((379375632211030822099382037933554287298806648581275086477760505444925405896331962112745194564124367 : ℚ) / 429496729600000000000000000000000000000000000000000000000000000000000000000000000000000000000000) * s ^ 7 * t ^ 3 +
    ((190446605146561159217457158333574763173082905433173266129516910752687345293798635163257540447 : ℚ) / 2147483648000000000000000000000000000000000000000000000000000000000000000000000000000000000) * s ^ 8 * t ^ 2 +
    ((6257383554058170045700468087481941912343409601141019701836904271511228007774354182035167551174789 : ℚ) / 1717986918400000000000000000000000000000000000000000000000000000000000000000000000000000000000000) * s ^ 9 * t ^ 1 +
    ((844552649166718802225814926384504854570232950444052737275896713374789487597705210013049831 : ℚ) / 17179869184000000000000000000000000000000000000000000000000000000000000000000000000000000000) * s ^ 10 * t ^ 0

def WcertRow3 (s t : ℚ) : ℚ :=
    ((2161223031683467513148746460061582538870655641511228241662550132222236044066625435656674910858263 : ℚ) / 2147483648000000000000000000000000000000000000000000000000000000000000000000000000000000000000000) * s ^ 0 * t ^ 10 +
    ((144994703285703010146358891394621797302324191869022461041486401311679716048823664530366020653 : ℚ) / 2147483648000000000000000000000000000000000000000000000000000000000000000000000000000000000) * s ^ 1 * t ^ 9 +
    ((630234176356042566346893089610299267855062113380532225377127481617483340731876622913437562321324367 : ℚ) / 429496729600000000000000000000000000000000000000000000000000000000000000000000000000000000000000) * s ^ 2 * t ^ 8 +
    ((6738450941129766733729822309131560778556993693355655520873849075902029030594379319577555666027 : ℚ) / 536870912000000000000000000000000000000000000000000000000000000000000000000000000000000000) * s ^ 3 * t ^ 7 +
    ((9362217573515991625653393019985348829654164232097827038608881158997003891311607932243058327432823523 : ℚ) / 214748364800000000000000000000000000000000000000000000000000000000000000000000000000000000000000) * s ^ 4 * t ^ 6 +
    ((66397935776679505829803275012434205496325753808827548293183718465525913041062076741072582876031 : ℚ) / 1073741824000000000000000000000000000000000000000000000000000000000000000000000000000000000) * s ^ 5 * t ^ 5 +
    ((7710689275317046246306816243770659311442470975857427748833050261661166723126928571730289419177223523 : ℚ) / 214748364800000000000000000000000000000000000000000000000000000000000000000000000000000000000000) * s ^ 6 * t ^ 4 +
    ((4659821283666483438610565704307712588520079211532839729698381568167216699328562859350934261043 : ℚ) / 536870912000000000000000000000000000000000000000000000000000000000000000000000000000000000) * s ^ 7 * t ^ 3 +
    ((379375632211030822099382037933554287298806648581275086477760505444925405896331962112745194564124367 : ℚ) / 429496729600000000000000000000000000000000000000000000000000000000000000000000000000000000000000) * s ^ 8 * t ^ 2 +
    ((78785089440356374457212006571467253112055124506443959565167707167832504695593954344341083997 : ℚ) / 2147483648000000000000000000000000000000000000000000000000000000000000000000000000000000000) * s ^ 9 * t ^ 1 +
    ((1087787823561208267377535785863736329393000367423364980047814295639012027949433374685791992858263 : ℚ) / 2147483648000000000000000000000000000000000000000000000000000000000000000000000000000000000000000) * s ^ 10 * t ^ 0

def WcertRow4 (s t : ℚ) : ℚ :=
    ((26682956980017639914180907083195698750040384557403773721927872421814865183423724756168539089 : ℚ) / 8589934592000000000000000000000000000000000000000000000000000000000000000000000000000000000) * s ^ 0 * t ^ 10 +
    ((184012120517519509051234862191156594866529058075009075632325404282015789066544653772458865384207841 : ℚ) / 858993459200000000000000000000000000000000000000000000000000000000000000000000000000000000000000) * s ^ 1 * t ^ 9 +
    ((20794793117099823090339438904130991758417725441092020079886620908845447391688468773914689681381 : ℚ) / 4294967296000000000000000000000000000000000000000000000000000000000000000000000000000000000) * s ^ 2 * t ^ 8 +
    ((9362217573515991625653393019985348829654164232097827038608881158997003891311607932243058327432823523 : ℚ) / 214748364800000000000000000000000000000000000000000000000000000000000000000000000000000000000000) * s ^ 3 * t ^ 7 +
    ((689408842260258807629471569684226737144520665563602118096235648486178300748676124000487191414731 : ℚ) / 4294967296000000000000000000000000000000000000000000000000000000000000000000000000000000000) * s ^ 4 * t ^ 6 +
    ((514549492413301291096010767945237958919993370881622584890206620413964972345401615053952259437261493983 : ℚ) / 2147483648000000000000000000000000000000000000000000000000000000000000000000000000000000000000000) * s ^ 5 * t ^ 5 +
    ((155191982638439700310594247012678034871221469376530366895174265656909607108256585444930539827301 : ℚ) / 1073741824000000000000000000000000000000000000000000000000000000000000000000000000000000000) * s ^ 6 * t ^ 4 +
    ((7710689275317046246306816243770659311442470975857427748833050261661166723126928571730289419177223523 : ℚ) / 214748364800000000000000000000000000000000000000000000000000000000000000000000000000000000000000) * s ^ 7 * t ^ 3 +
    ((31998450743857866451033357366415403487325207780323016656982267230913439039515742899663439798513 : ℚ) / 8589934592000000000000000000000000000000000000000000000000000000000000000000000000000000000) * s ^ 8 * t ^ 2 +
    ((134760896726458729185629349163035637578899705177672136223819885380404135284831918689509993213807841 : ℚ) / 858993459200000000000000000000000000000000000000000000000000000000000000000000000000000000000000) * s ^ 9 * t ^ 1 +
    ((9424705665784147092019514966517419226108892177981302720648163719503091484312525414819314651 : ℚ) / 4294967296000000000000000000000000000000000000000000000000000000000000000000000000000000000) * s ^ 10 * t ^ 0

def WcertRow5 (s t : ℚ) : ℚ :=
    ((86445582619085775435172104327228548051419638989826610939575863186458163116135183747554497625023523 : ℚ) / 21474836480000000000000000000000000000000000000000000000000000000000000000000000000000000000000000) * s ^ 0 * t ^ 10 +
    ((1217573256861367327011629523062721980128182772343699188564832825222594644329059822158468529493 : ℚ) / 4294967296000000000000000000000000000000000000000000000000000000000000000000000000000000000) * s ^ 1 * t ^ 9 +
    ((28336836541973027529567504940455107732339324367451652730931971269470997069015224347089539903521211707 : ℚ) / 4294967296000000000000000000000000000000000000000000000000000000000000000000000000000000000000000) * s ^ 2 * t ^ 8 +
    ((66397935776679505829803275012434205496325753808827548293183718465525913041062076741072582876031 : ℚ) / 1073741824000000000000000000000000000000000000000000000000000000000000000000000000000000000) * s ^ 3 * t ^ 7 +
    ((514549492413301291096010767945237958919993370881622584890206620413964972345401615053952259437261493983 : ℚ) / 2147483648000000000000000000000000000000000000000000000000000000000000000000000000000000000000000) * s ^ 4 * t ^ 6 +
    ((812366253756528630816949076383454648850408471140453752181141970099108377730114355786665619481903 : ℚ) / 2147483648000000000000000000000000000000000000000000000000000000000000000000000000000000000) * s ^ 5 * t ^ 5 +
    ((514549492413301291096010767945237958919993370881622584890206620413964972345401615053952259437261493983 : ℚ) / 2147483648000000000000000000000000000000000000000000000000000000000000000000000000000000000000000) * s ^ 6 * t ^ 4 +
    ((66397935776679505829803275012434205496325753808827548293183718465525913041062076741072582876031 : ℚ) / 1073741824000000000000000000000000000000000000000000000000000000000000000000000000000000000) * s ^ 7 * t ^ 3 +
    ((28336836541973027529567504940455107732339324367451652730931971269470997069015224347089539903521211707 : ℚ) / 4294967296000000000000000000000000000000000000000000000000000000000000000000000000000000000000000) * s ^ 8 * t ^ 2 +
    ((1217573256861367327011629523062721980128182772343699188564832825222594644329059822158468529493 : ℚ) / 4294967296000000000000000000000000000000000000000000000000000000000000000000000000000000000) * s ^ 9 * t ^ 1 +
    ((86445582619085775435172104327228548051419638989826610939575863186458163116135183747554497625023523 : ℚ) / 21474836480000000000000000000000000000000000000000000000000000000000000000000000000000000000000000) * s ^ 10 * t ^ 0

def WcertRow6 (s t : ℚ) : ℚ :=
    ((9424705665784147092019514966517419226108892177981302720648163719503091484312525414819314651 : ℚ) / 4294967296000000000000000000000000000000000000000000000000000000000000000000000000000000000) * s ^ 0 * t ^ 10 +
    ((134760896726458729185629349163035637578899705177672136223819885380404135284831918689509993213807841 : ℚ) / 858993459200000000000000000000000000000000000000000000000000000000000000000000000000000000000000) * s ^ 1 * t ^ 9 +
    ((31998450743857866451033357366415403487325207780323016656982267230913439039515742899663439798513 : ℚ) / 8589934592000000000000000000000000000000000000000000000000000000000000000000000000000000000) * s ^ 2 * t ^ 8 +
    ((7710689275317046246306816243770659311442470975857427748833050261661166723126928571730289419177223523 : ℚ) / 214748364800000000000000000000000000000000000000000000000000000000000000000000000000000000000000) * s ^ 3 * t ^ 7 +
    ((155191982638439700310594247012678034871221469376530366895174265656909607108256585444930539827301 : ℚ) / 1073741824000000000000000000000000000000000000000000000000000000000000000000000000000000000) * s ^ 4 * t ^ 6 +
    ((514549492413301291096010767945237958919993370881622584890206620413964972345401615053952259437261493983 : ℚ) / 2147483648000000000000000000000000000000000000000000000000000000000000000000000000000000000000000) * s ^ 5 * t ^ 5 +
    ((689408842260258807629471569684226737144520665563602118096235648486178300748676124000487191414731 : ℚ) / 4294967296000000000000000000000000000000000000000000000000000000000000000000000000000000000) * s ^ 6 * t ^ 4 +
    ((9362217573515991625653393019985348829654164232097827038608881158997003891311607932243058327432823523 : ℚ) / 214748364800000000000000000000000000000000000000000000000000000000000000000000000000000000000000) * s ^ 7 * t ^ 3 +
    ((20794793117099823090339438904130991758417725441092020079886620908845447391688468773914689681381 : ℚ) / 4294967296000000000000000000000000000000000000000000000000000000000000000000000000000000000) * s ^ 8 * t ^ 2 +
    ((184012120517519509051234862191156594866529058075009075632325404282015789066544653772458865384207841 : ℚ) / 858993459200000000000000000000000000000000000000000000000000000000000000000000000000000000000000) * s ^ 9 * t ^ 1 +
    ((26682956980017639914180907083195698750040384557403773721927872421814865183423724756168539089 : ℚ) / 8589934592000000000000000000000000000000000000000000000000000000000000000000000000000000000) * s ^ 10 * t ^ 0

def WcertRow7 (s t : ℚ) : ℚ :=
    ((1087787823561208267377535785863736329393000367423364980047814295639012027949433374685791992858263 : ℚ) / 2147483648000000000000000000000000000000000000000000000000000000000000000000000000000000000000000) * s ^ 0 * t ^ 10 +
    ((78785089440356374457212006571467253112055124506443959565167707167832504695593954344341083997 : ℚ) / 2147483648000000000000000000000000000000000000000000000000000000000000000000000000000000000) * s ^ 1 * t ^ 9 +
    ((379375632211030822099382037933554287298806648581275086477760505444925405896331962112745194564124367 : ℚ) / 429496729600000000000000000000000000000000000000000000000000000000000000000000000000000000000000) * s ^ 2 * t ^ 8 +
    ((4659821283666483438610565704307712588520079211532839729698381568167216699328562859350934261043 : ℚ) / 536870912000000000000000000000000000000000000000000000000000000000000000000000000000000000) * s ^ 3 * t ^ 7 +
    ((7710689275317046246306816243770659311442470975857427748833050261661166723126928571730289419177223523 : ℚ) / 214748364800000000000000000000000000000000000000000000000000000000000000000000000000000000000000) * s ^ 4 * t ^ 6 +
    ((66397935776679505829803275012434205496325753808827548293183718465525913041062076741072582876031 : ℚ) / 1073741824000000000000000000000000000000000000000000000000000000000000000000000000000000000) * s ^ 5 * t ^ 5 +
    ((9362217573515991625653393019985348829654164232097827038608881158997003891311607932243058327432823523 : ℚ) / 214748364800000000000000000000000000000000000000000000000000000000000000000000000000000000000000) * s ^ 6 * t ^ 4 +
    ((6738450941129766733729822309131560778556993693355655520873849075902029030594379319577555666027 : ℚ) / 536870912000000000000000000000000000000000000000000000000000000000000000000000000000000000) * s ^ 7 * t ^ 3 +
    ((630234176356042566346893089610299267855062113380532225377127481617483340731876622913437562321324367 : ℚ) / 429496729600000000000000000000000000000000000000000000000000000000000000000000000000000000000000) * s ^ 8 * t ^ 2 +
    ((144994703285703010146358891394621797302324191869022461041486401311679716048823664530366020653 : ℚ) / 2147483648000000000000000000000000000000000000000000000000000000000000000000000000000000000) * s ^ 9 * t ^ 1 +
    ((2161223031683467513148746460061582538870655641511228241662550132222236044066625435656674910858263 : ℚ) / 2147483648000000000000000000000000000000000000000000000000000000000000000000000000000000000000000) * s ^ 10 * t ^ 0

def WcertRow8 (s t : ℚ) : ℚ :=
    ((844552649166718802225814926384504854570232950444052737275896713374789487597705210013049831 : ℚ) / 17179869184000000000000000000000000000000000000000000000000000000000000000000000000000000000) * s ^ 0 * t ^ 10 +
    ((6257383554058170045700468087481941912343409601141019701836904271511228007774354182035167551174789 : ℚ) / 1717986918400000000000000000000000000000000000000000000000000000000000000000000000000000000000000) * s ^ 1 * t ^ 9 +
    ((190446605146561159217457158333574763173082905433173266129516910752687345293798635163257540447 : ℚ) / 2147483648000000000000000000000000000000000000000000000000000000000000000000000000000000000) * s ^ 2 * t ^ 8 +
    ((379375632211030822099382037933554287298806648581275086477760505444925405896331962112745194564124367 : ℚ) / 429496729600000000000000000000000000000000000000000000000000000000000000000000000000000000000000) * s ^ 3 * t ^ 7 +
    ((31998450743857866451033357366415403487325207780323016656982267230913439039515742899663439798513 : ℚ) / 8589934592000000000000000000000000000000000000000000000000000000000000000000000000000000000) * s ^ 4 * t ^ 6 +
    ((28336836541973027529567504940455107732339324367451652730931971269470997069015224347089539903521211707 : ℚ) / 4294967296000000000000000000000000000000000000000000000000000000000000000000000000000000000000000) * s ^ 5 * t ^ 5 +
    ((20794793117099823090339438904130991758417725441092020079886620908845447391688468773914689681381 : ℚ) / 4294967296000000000000000000000000000000000000000000000000000000000000000000000000000000000) * s ^ 6 * t ^ 4 +
    ((630234176356042566346893089610299267855062113380532225377127481617483340731876622913437562321324367 : ℚ) / 429496729600000000000000000000000000000000000000000000000000000000000000000000000000000000000000) * s ^ 7 * t ^ 3 +
    ((3113799993575037432177672120004357710360897753295795662578793009819538560354166725480362049039 : ℚ) / 17179869184000000000000000000000000000000000000000000000000000000000000000000000000000000000) * s ^ 8 * t ^ 2 +
    ((15001415250586082132415778689035355057250389485778492288061220910862636698729631466771946055974789 : ℚ) / 1717986918400000000000000000000000000000000000000000000000000000000000000000000000000000000000000) * s ^ 9 * t ^ 1 +
    ((23052689205301037732343171337349850090359233005638872498262644226404982444964683500840767 : ℚ) / 171798691840000000000000000000000000000000000000000000000000000000000000000000000000000000) * s ^ 10 * t ^ 0

def WcertRow9 (s t : ℚ) : ℚ :=
    ((15232168405254138907674220420049943326066844793149691002465448870649858175266065685898028619421 : ℚ) / 8589934592000000000000000000000000000000000000000000000000000000000000000000000000000000000000000) * s ^ 0 * t ^ 10 +
    ((1260777919997502286291135842509723052508995060967249364489445522898249848249446486806393383 : ℚ) / 8589934592000000000000000000000000000000000000000000000000000000000000000000000000000000000) * s ^ 1 * t ^ 9 +
    ((6257383554058170045700468087481941912343409601141019701836904271511228007774354182035167551174789 : ℚ) / 1717986918400000000000000000000000000000000000000000000000000000000000000000000000000000000000000) * s ^ 2 * t ^ 8 +
    ((78785089440356374457212006571467253112055124506443959565167707167832504695593954344341083997 : ℚ) / 2147483648000000000000000000000000000000000000000000000000000000000000000000000000000000000) * s ^ 3 * t ^ 7 +
    ((134760896726458729185629349163035637578899705177672136223819885380404135284831918689509993213807841 : ℚ) / 858993459200000000000000000000000000000000000000000000000000000000000000000000000000000000000000) * s ^ 4 * t ^ 6 +
    ((1217573256861367327011629523062721980128182772343699188564832825222594644329059822158468529493 : ℚ) / 4294967296000000000000000000000000000000000000000000000000000000000000000000000000000000000) * s ^ 5 * t ^ 5 +
    ((184012120517519509051234862191156594866529058075009075632325404282015789066544653772458865384207841 : ℚ) / 858993459200000000000000000000000000000000000000000000000000000000000000000000000000000000000000) * s ^ 6 * t ^ 4 +
    ((144994703285703010146358891394621797302324191869022461041486401311679716048823664530366020653 : ℚ) / 2147483648000000000000000000000000000000000000000000000000000000000000000000000000000000000) * s ^ 7 * t ^ 3 +
    ((15001415250586082132415778689035355057250389485778492288061220910862636698729631466771946055974789 : ℚ) / 1717986918400000000000000000000000000000000000000000000000000000000000000000000000000000000000000) * s ^ 8 * t ^ 2 +
    ((3772729536259968379447076255393105285766656361457285788052412093365285312190716500785684487 : ℚ) / 8589934592000000000000000000000000000000000000000000000000000000000000000000000000000000000) * s ^ 9 * t ^ 1 +
    ((58739374699467993460364985370187651312458092462922482056110745536525685563411736754486640619421 : ℚ) / 8589934592000000000000000000000000000000000000000000000000000000000000000000000000000000000000000) * s ^ 10 * t ^ 0

def WcertRow10 (s t : ℚ) : ℚ :=
    ((15232168405254138907674220420049943326066844793149691002465448870649858175266065685898028619421 : ℚ) / 8589934592000000000000000000000000000000000000000000000000000000000000000000000000000000000000000) * s ^ 1 * t ^ 9 +
    ((844552649166718802225814926384504854570232950444052737275896713374789487597705210013049831 : ℚ) / 17179869184000000000000000000000000000000000000000000000000000000000000000000000000000000000) * s ^ 2 * t ^ 8 +
    ((1087787823561208267377535785863736329393000367423364980047814295639012027949433374685791992858263 : ℚ) / 2147483648000000000000000000000000000000000000000000000000000000000000000000000000000000000000000) * s ^ 3 * t ^ 7 +
    ((9424705665784147092019514966517419226108892177981302720648163719503091484312525414819314651 : ℚ) / 4294967296000000000000000000000000000000000000000000000000000000000000000000000000000000000) * s ^ 4 * t ^ 6 +
    ((86445582619085775435172104327228548051419638989826610939575863186458163116135183747554497625023523 : ℚ) / 21474836480000000000000000000000000000000000000000000000000000000000000000000000000000000000000000) * s ^ 5 * t ^ 5 +
    ((26682956980017639914180907083195698750040384557403773721927872421814865183423724756168539089 : ℚ) / 8589934592000000000000000000000000000000000000000000000000000000000000000000000000000000000) * s ^ 6 * t ^ 4 +
    ((2161223031683467513148746460061582538870655641511228241662550132222236044066625435656674910858263 : ℚ) / 2147483648000000000000000000000000000000000000000000000000000000000000000000000000000000000000000) * s ^ 7 * t ^ 3 +
    ((23052689205301037732343171337349850090359233005638872498262644226404982444964683500840767 : ℚ) / 171798691840000000000000000000000000000000000000000000000000000000000000000000000000000000) * s ^ 8 * t ^ 2 +
    ((58739374699467993460364985370187651312458092462922482056110745536525685563411736754486640619421 : ℚ) / 8589934592000000000000000000000000000000000000000000000000000000000000000000000000000000000000000) * s ^ 9 * t ^ 1 +
    ((1562212523279439178945185699033022270026537084720213553888923467239684545224876528852847 : ℚ) / 17179869184000000000000000000000000000000000000000000000000000000000000000000000000000000000) * s ^ 10 * t ^ 0

/-- Positivity certificate for the central-region two-point difference. -/
def Wcert (u v s t : ℚ) : ℚ :=
  ((4832611656054505793855577206971084992007471271745769154636639238325294167471458067339659880579 : ℚ) / 171798691840000000000000000000000000000000000000000000000000000000000000000000000000000000000000000) * (u + v) ^ 10 * (s + t) ^ 10 +
  u ^ 0 * v ^ 10 * WcertRow0 s t +
  u ^ 1 * v ^ 9 * WcertRow1 s t +
  u ^ 2 * v ^ 8 * WcertRow2 s t +
  u ^ 3 * v ^ 7 * WcertRow3 s t +
  u ^ 4 * v ^ 6 * WcertRow4 s t +
  u ^ 5 * v ^ 5 * WcertRow5 s t +
  u ^ 6 * v ^ 4 * WcertRow6 s t +
  u ^ 7 * v ^ 3 * WcertRow7 s t +
  u ^ 8 * v ^ 2 * WcertRow8 s t +
  u ^ 9 * v ^ 1 * WcertRow9 s t +
  u ^ 10 * v ^ 0 * WcertRow10 s t

/-- Positivity certificate for `centralDen` on `[0, qlC^2]`. -/
def Bcert (u v : ℚ) : ℚ :=
  ((136546660353858578832619715197102582369915693053 : ℚ) / 52428800000000000000000000000000000000000000000000) * (u + v) ^ 5 +
  ((52292253339646141421167380284802897417630084306947 : ℚ) / 52428800000000000000000000000000000000000000000000) * u ^ 0 * v ^ 5 +
  ((20772858514304428706551367484802897417630084306947 : ℚ) / 10485760000000000000000000000000000000000000000000) * u ^ 1 * v ^ 4 +
  ((7195432482390399226361592459036497417630084306947 : ℚ) / 5242880000000000000000000000000000000000000000000) * u ^ 2 * v ^ 3 +
  ((2094804200049775349706559319751183625630084306947 : ℚ) / 5242880000000000000000000000000000000000000000000) * u ^ 3 * v ^ 2 +
  ((452459111700810317565278738114195946990868306947 : ℚ) / 10485760000000000000000000000000000000000000000000) * u ^ 4 * v ^ 1

/-- Negativity certificate for the low-tail two-point difference: the
difference polynomial at `(qstar + s, qstar + t)` equals `-(Scert s t)` times
`(t - s)` up to sign, and every displayed coefficient is positive. -/
def Scert (s t : ℚ) : ℚ :=
-(((76915967916547538239997281144613462146755223142391144348141696412665971686184190146735236801496135434846693857103120983 : ℚ) / 50000000000000000000000000000000000000000000000000000000000000000000000000000000000000000000000000000000000000000000) * s ^ 0 * t ^ 0 +
  ((1248863289952563640918654359059354309962761776591917646262541107181909796940951981151411437357622780037648883 : ℚ) / 1250000000000000000000000000000000000000000000000000000000000000000000000000000000000000000000000000000000) * s ^ 0 * t ^ 1 +
  ((51810823533557403399464465658598134408259931621719510913620498652799560031513841062629987350340349 : ℚ) / 250000000000000000000000000000000000000000000000000000000000000000000000000000000000000000000000) * s ^ 0 * t ^ 2 +
  ((188012941991169945663408076398974002442547219849920122380101705936703273201211491514683 : ℚ) / 12500000000000000000000000000000000000000000000000000000000000000000000000000000000000) * s ^ 0 * t ^ 3 +
  ((1416903307564054235727108153483545488098191691758674245387814704680612852583 : ℚ) / 5000000000000000000000000000000000000000000000000000000000000000000000000000) * s ^ 0 * t ^ 4 +
  ((1248863289952563640918654359059354309962761776591917646262541107181909796940951981151411437357622780037648883 : ℚ) / 1250000000000000000000000000000000000000000000000000000000000000000000000000000000000000000000000000000000) * s ^ 1 * t ^ 0 +
  ((20677970264708761474637489659248089858272796516951120544505731979469726540808780354209995783446783 : ℚ) / 31250000000000000000000000000000000000000000000000000000000000000000000000000000000000000000000) * s ^ 1 * t ^ 1 +
  ((873133857613513849847987929320646763136434504666688739165349422135109819603634474544049 : ℚ) / 6250000000000000000000000000000000000000000000000000000000000000000000000000000000000) * s ^ 1 * t ^ 2 +
  ((3203548565172658068037317593914123224381331826450512657887814704680612852583 : ℚ) / 312500000000000000000000000000000000000000000000000000000000000000000000000) * s ^ 1 * t ^ 3 +
  ((24249977010547178659113577089060761543784439784877226392898460483 : ℚ) / 125000000000000000000000000000000000000000000000000000000000000000) * s ^ 1 * t ^ 4 +
  ((51810823533557403399464465658598134408259931621719510913620498652799560031513841062629987350340349 : ℚ) / 250000000000000000000000000000000000000000000000000000000000000000000000000000000000000000000000) * s ^ 2 * t ^ 0 +
  ((873133857613513849847987929320646763136434504666688739165349422135109819603634474544049 : ℚ) / 6250000000000000000000000000000000000000000000000000000000000000000000000000000000000) * s ^ 2 * t ^ 1 +
  ((37487989183211904109208674947094302228281406842130129158490332342125515673247 : ℚ) / 1250000000000000000000000000000000000000000000000000000000000000000000000000) * s ^ 2 * t ^ 2 +
  ((139028306175401964510190072349414018913652644354631679178695381449 : ℚ) / 62500000000000000000000000000000000000000000000000000000000000000) * s ^ 2 * t ^ 3 +
  ((1057006786830488336973219045396542550892856793198015149 : ℚ) / 25000000000000000000000000000000000000000000000000000000) * s ^ 2 * t ^ 4 +
  ((188012941991169945663408076398974002442547219849920122380101705936703273201211491514683 : ℚ) / 12500000000000000000000000000000000000000000000000000000000000000000000000000000000000) * s ^ 3 * t ^ 0 +
  ((3203548565172658068037317593914123224381331826450512657887814704680612852583 : ℚ) / 312500000000000000000000000000000000000000000000000000000000000000000000000) * s ^ 3 * t ^ 1 +
  ((139028306175401964510190072349414018913652644354631679178695381449 : ℚ) / 62500000000000000000000000000000000000000000000000000000000000000) * s ^ 3 * t ^ 2 +
  ((519672795993195600274003725994151683630952264399338383 : ℚ) / 3125000000000000000000000000000000000000000000000000000) * s ^ 3 * t ^ 3 +
  ((3964407199270311961023747700377327466486283 : ℚ) / 1250000000000000000000000000000000000000000000) * s ^ 3 * t ^ 4 +
  ((1416903307564054235727108153483545488098191691758674245387814704680612852583 : ℚ) / 5000000000000000000000000000000000000000000000000000000000000000000000000000) * s ^ 4 * t ^ 0 +
  ((24249977010547178659113577089060761543784439784877226392898460483 : ℚ) / 125000000000000000000000000000000000000000000000000000000000000000) * s ^ 4 * t ^ 1 +
  ((1057006786830488336973219045396542550892856793198015149 : ℚ) / 25000000000000000000000000000000000000000000000000000000) * s ^ 4 * t ^ 2 +
  ((3964407199270311961023747700377327466486283 : ℚ) / 1250000000000000000000000000000000000000000000) * s ^ 4 * t ^ 3 +
  ((30301515468030857381920750904183 : ℚ) / 500000000000000000000000000000000000) * s ^ 4 * t ^ 4)

/-- Half-width `0.5 - plow` of the central region, the bound on `|p - 1/2|`. -/
def qlC : ℚ := 0.47575

/-! ## Concrete scenario inputs used by the claims -/

/-- Policy parameters of the C2 scenario (`lead 1, review 1, shortage 1,
holding 0.2`). -/
def ppC2 : PolicyParams :=
  { lead_time_weeks := 1, review_period_weeks := 1, shortage_cost_per_unit := 1,
    holding_cost_per_unit_per_week := 0.2, min_service_level := none,
    max_order_per_item := none }

/-- Parameters with `protection_weeks = 1` (so `math.sqrt(1) = 1` exactly)
and an integral order cap. -/
def ppC3 : PolicyParams :=
  { lead_time_weeks := 0, review_period_weeks := 1, shortage_cost_per_unit := 1,
    holding_cost_per_unit_per_week := 0.2, min_service_level := none,
    max_order_per_item := some 3 }

/-- Parameters with `protection_weeks = 1` and the fractional order cap `0.7`. -/
def ppC4 : PolicyParams :=
  { lead_time_weeks := 0, review_period_weeks := 1, shortage_cost_per_unit := 1,
    holding_cost_per_unit_per_week := 0.2, min_service_level := none,
    max_order_per_item := some 0.7 }

/-- Parameters with `protection_weeks = 1` and cost ratio `cu = 0.1, co = 0.5`,
giving service level `1/6 < 1/2` and hence a negative z-score. -/
def ppC5 : PolicyParams :=
  { lead_time_weeks := 1, review_period_weeks := 0, shortage_cost_per_unit := 0.1,
    holding_cost_per_unit_per_week := 1, min_service_level := none,
    max_order_per_item := none }

/-- The C1 scenario simulator: one key, demand `[10, 10]`, end inventory 0,
`in_transit_w1 = 5`, `in_transit_w2 = 0`, default costs `(0.2, 1)`. -/
def simC1 : InventorySim Unit :=
  { keys := [()]
    demand := [fun _ => 10, fun _ => 10]
    costs := { holding_per_unit := 0.2, shortage_per_unit := 1 }
    state :=
      { end_inventory := fun _ => 0, in_transit_w1 := fun _ => 5,
        in_transit_w2 := fun _ => 0, cumulative_holding := 0, cumulative_shortage := 0 }
    t := 0 }

/-- A snapshot whose `Cumulative Holding Cost` column carries the non-zero
value 100. -/
def snapC7 : Snapshot Unit :=
  { end_inventory := fun _ => 0, in_transit_w1 := none, in_transit_w2 := none,
    cum_holding_col := some [100], cum_shortage_col := none }

/-- Simulator initialized from `snapC7`, one demand period with demand 0. -/
def simC7 : InventorySim Unit :=
  { keys := [()]
    demand := [fun _ => 0]
    costs := { holding_per_unit := 0.2, shortage_per_unit := 1 }
    state := initState snapC7
    t := 0 }

/-- The C1 simulator with its clock already past the two demand periods. -/
def simC10 : InventorySim Unit := { simC1 with t := 2 }

/-- A rational stand-in for `math.sqrt` that (composed with `lgW`) satisfies
the tail hypotheses of the monotonicity theorem. -/
def sqW : ℚ → ℚ := fun x => x

/-- A rational stand-in for `math.log` that (composed with `sqW`) satisfies
the tail hypotheses of the monotonicity theorem. -/
def lgW : ℚ → ℚ := fun p => -(qstar + plow - p) / 2

/-! ## Rounding lemmas -/

/-- `np.rint` of a nonnegative rational is nonnegative. -/
theorem rint_nonneg {x : ℚ} (hx : 0 ≤ x) : 0 ≤ rint x := by
  unfold rint
  have h0 : (0 : ℤ) ≤ ⌊x⌋ := Int.floor_nonneg.mpr hx
  split_ifs <;> omega

/-- `np.rint` is monotone. -/
theorem rint_mono {x y : ℚ} (hxy : x ≤ y) : rint x ≤ rint y := by
  unfold rint
  have hf : ⌊x⌋ ≤ ⌊y⌋ := Int.floor_le_floor hxy
  rcases eq_or_lt_of_le hf with heq | hlt
  · rw [← heq]
    have hr : x - (⌊x⌋ : ℚ) ≤ y - (⌊x⌋ : ℚ) := by linarith
    split_ifs <;> first | omega | linarith
  · split_ifs <;> omega

/-- `np.rint` fixes integers. -/
theorem rint_intCast (n : ℤ) : rint (n : ℚ) = n := by
  unfold rint
  rw [Int.floor_intCast]
  norm_num

/-- `np.rint` at an exact half-integer rounds to the nearest even integer. -/
theorem rint_half (n : ℤ) : rint ((n : ℚ) + 1/2) = if n % 2 = 0 then n else n + 1 := by
  unfold rint
  have hfl : ⌊(n : ℚ) + 1/2⌋ = n := by
    rw [Int.floor_eq_iff]
    constructor <;> norm_num
  rw [hfl]
  norm_num


/-! ## Simulator theorems -/

/-- C1: one call to `step(orders)` computes exactly
`start_inventory = end_inventory + in_transit_w1`,
`sales = min(start_inventory, demand)` per key (lost sales, no backorder),
`missed = demand - sales`, `end_inventory = start_inventory - sales`,
`in_transit_w1_new = in_transit_w2_prev`, `in_transit_w2_new` = the
clipped-and-aligned orders, and accrues shortage cost on the missed units. -/
theorem c1_step_transition {K : Type} (sim : InventorySim K) (orders : K → ℚ)
    (d : K → ℚ) (h : sim.demand[sim.t]? = some d) :
    sim.step orders = some
      ({ sim with
          state :=
            { end_inventory := fun k =>
                (sim.state.end_inventory k + sim.state.in_transit_w1 k) -
                  min (sim.state.end_inventory k + sim.state.in_transit_w1 k) (d k)
              in_transit_w1 := sim.state.in_transit_w2
              in_transit_w2 := fun k => max (orders k) 0
              cumulative_holding := sim.state.cumulative_holding +
                keySum sim.keys (fun k =>
                  ((sim.state.end_inventory k + sim.state.in_transit_w1 k) -
                    min (sim.state.end_inventory k + sim.state.in_transit_w1 k) (d k)) *
                    sim.costs.holding_per_unit)
              cumulative_shortage := sim.state.cumulative_shortage +
                keySum sim.keys (fun k =>
                  (d k - min (sim.state.end_inventory k + sim.state.in_transit_w1 k) (d k)) *
                    sim.costs.shortage_per_unit) }
          t := sim.t + 1 },
        { holding_cost := keySum sim.keys (fun k =>
            ((sim.state.end_inventory k + sim.state.in_transit_w1 k) -
              min (sim.state.end_inventory k + sim.state.in_transit_w1 k) (d k)) *
              sim.costs.holding_per_unit)
          shortage_cost := keySum sim.keys (fun k =>
            (d k - min (sim.state.end_inventory k + sim.state.in_transit_w1 k) (d k)) *
              sim.costs.shortage_per_unit)
          round_cost := keySum sim.keys (fun k =>
              ((sim.state.end_inventory k + sim.state.in_transit_w1 k) -
                min (sim.state.end_inventory k + sim.state.in_transit_w1 k) (d k)) *
                sim.costs.holding_per_unit) +
            keySum sim.keys (fun k =>
              (d k - min (sim.state.end_inventory k + sim.state.in_transit_w1 k) (d k)) *
                sim.costs.shortage_per_unit)
          cumulative_cost :=
            (sim.state.cumulative_holding +
              keySum sim.keys (fun k =>
                ((sim.state.end_inventory k + sim.state.in_transit_w1 k) -
                  min (sim.state.end_inventory k + sim.state.in_transit_w1 k) (d k)) *
                  sim.costs.holding_per_unit)) +
            (sim.state.cumulative_shortage +
              keySum sim.keys (fun k =>
                (d k - min (sim.state.end_inventory k + sim.state.in_transit_w1 k) (d k)) *
                  sim.costs.shortage_per_unit))
          t := sim.t + 1
          done := decide (sim.demand.length ≤ sim.t + 1) }) := by
  unfold InventorySim.step
  rw [h]

/-- Witness for C1: the spec scenario (`demand = [10,10]`, end inventory 0,
`w1 = 5`, `w2 = 0`, zero orders) yields start 5, sales 5, missed 5, new end
inventory 0, and shortage cost 5. -/
theorem c1_step_transition_witness :
    (simC1.step (fun _ => 0)).map (fun r =>
      (r.1.state.end_inventory (), r.1.state.in_transit_w1 (),
       r.1.state.in_transit_w2 (), r.2.holding_cost, r.2.shortage_cost, r.1.t)) =
      some (0, 0, 0, 0, 5, 1) ∧
    simC1.state.end_inventory () + simC1.state.in_transit_w1 () = 5 ∧
    min (simC1.state.end_inventory () + simC1.state.in_transit_w1 ()) 10 = 5 ∧
    (10 : ℚ) - min (simC1.state.end_inventory () + simC1.state.in_transit_w1 ()) 10 = 5 := by
  have h := c1_step_transition simC1 (fun _ => 0) (fun _ => 10) rfl
  rw [h]
  refine ⟨?_, by norm_num [simC1], by norm_num [simC1], by norm_num [simC1]⟩
  simp only [Option.map_some]
  norm_num [simC1, keySum]

/-- Cumulative-cost bookkeeping of one `step`. -/
theorem step_cumulative {K : Type} {sim : InventorySim K} {o : K → ℚ}
    {sim' : InventorySim K} {m : StepMetrics}
    (hs : sim.step o = some (sim', m)) :
    sim'.state.cumulative_holding = sim.state.cumulative_holding + m.holding_cost ∧
    sim'.state.cumulative_shortage = sim.state.cumulative_shortage + m.shortage_cost := by
  unfold InventorySim.step at hs
  cases hd : sim.demand[sim.t]? with
  | none => rw [hd] at hs; cases hs
  | some d =>
    rw [hd] at hs
    simp only [Option.some.injEq, Prod.mk.injEq] at hs
    obtain ⟨h1, h2⟩ := hs
    rw [← h1, ← h2]
    exact ⟨rfl, rfl⟩

/-- C7 counterexample: a snapshot carrying `Cumulative Holding Cost = 100`
makes the accumulator after one step equal 100, while the per-step holding
costs sum to 0 — the claim's equality fails for such snapshots. -/
theorem c7_counterexample :
    ((runSteps simC7 [fun _ => 0]).map fun r =>
       (r.1.state.cumulative_holding, (r.2.map StepMetrics.holding_cost).sum)) =
      some (100, 0) ∧ (100 : ℚ) ≠ 0 := by
  constructor
  · simp only [runSteps, InventorySim.step, simC7, snapC7, initState, keySum]
    norm_num
  · norm_num

/-- C7 (amended): after `n` steps, `cumulative_holding` equals its
snapshot-derived initial value plus the sum of the per-step `holding_cost`
values, and likewise for shortage. -/
theorem c7_cumulative_amended {K : Type} (sim : InventorySim K) (os : List (K → ℚ))
    (simF : InventorySim K) (ms : List StepMetrics)
    (h : runSteps sim os = some (simF, ms)) :
    simF.state.cumulative_holding =
      sim.state.cumulative_holding + (ms.map StepMetrics.holding_cost).sum ∧
    simF.state.cumulative_shortage =
      sim.state.cumulative_shortage + (ms.map StepMetrics.shortage_cost).sum := by
  induction os generalizing sim ms with
  | nil =>
    unfold runSteps at h
    simp only [Option.some.injEq, Prod.mk.injEq] at h
    obtain ⟨h1, h2⟩ := h
    rw [← h1, ← h2]
    simp
  | cons o rest ih =>
    unfold runSteps at h
    cases hs : sim.step o with
    | none => rw [hs] at h; cases h
    | some pr =>
      obtain ⟨sim', m⟩ := pr
      rw [hs] at h
      simp only [Option.some_bind] at h
      cases hr : runSteps sim' rest with
      | none => rw [hr] at h; cases h
      | some pr2 =>
        obtain ⟨simF', ms'⟩ := pr2
        rw [hr] at h
        simp only [Option.map_some', Option.some.injEq, Prod.mk.injEq] at h
        obtain ⟨h1, h2⟩ := h
        subst h1
        subst h2
        obtain ⟨ihH, ihS⟩ := ih sim' ms' hr
        obtain ⟨sH, sS⟩ := step_cumulative hs
        constructor
        · rw [ihH, sH]; simp only [List.map_cons, List.sum_cons]; ring
        · rw [ihS, sS]; simp only [List.map_cons, List.sum_cons]; ring

/-- Witness for C7 (amended): applied to the `snapC7` scenario. -/
theorem c7_cumulative_amended_witness :
    (runSteps simC7 [fun _ => 0]).elim False (fun r =>
      r.1.state.cumulative_holding =
        simC7.state.cumulative_holding + (r.2.map StepMetrics.holding_cost).sum) := by
  cases hr : runSteps simC7 [fun _ => 0] with
  | none =>
    have hsome : (runSteps simC7 [fun _ => 0]).isSome = true := rfl
    rw [hr] at hsome
    cases hsome
  | some r =>
    obtain ⟨sF, ms⟩ := r
    exact (c7_cumulative_amended simC7 [fun _ => 0] sF ms hr).1

/-- C8: `reset_to(snapshot)` followed by `inventory_position()` reproduces the
snapshot's per-key total position (end inventory plus both in-transit stages)
exactly, resets `t` to 0, and leaves keys, demand sequence and costs
unchanged. -/
theorem c8_reset_position {K : Type} (sim : InventorySim K) (snap : Snapshot K) :
    (sim.resetTo snap).invPosition = snapshotPosition snap ∧
    (sim.resetTo snap).t = 0 ∧
    (sim.resetTo snap).demand = sim.demand ∧
    (sim.resetTo snap).keys = sim.keys ∧
    (sim.resetTo snap).costs = sim.costs := by
  exact ⟨rfl, rfl, rfl, rfl, rfl⟩

/-- C10: calling `step` when `t` already equals or exceeds the number of
demand periods fails at the demand lookup (`dates[t]`, an index error) before
any state is written: no successor state is produced and the simulator value
is unchanged. -/
theorem c10_step_past_end {K : Type} (sim : InventorySim K) (orders : K → ℚ)
    (h : sim.demand.length ≤ sim.t) :
    sim.step orders = none := by
  unfold InventorySim.step
  have hnone : sim.demand[sim.t]? = none := by
    rw [List.getElem?_eq_none_iff]
    exact h
  rw [hnone]

/-- Witness for C10: the C1 scenario simulator with `t = 2` past its two
demand periods. -/
theorem c10_step_past_end_witness : simC10.step (fun _ => 0) = none :=
  c10_step_past_end simC10 (fun _ => 0) (by norm_num [simC10, simC1])

/-! ## Policy theorems -/

/-- When the clamped service level lands in the central region, the z-score
is the central rational expression at that level. -/
theorem zscore_central (sq lg : ℚ → ℚ) (pp : PolicyParams) (v : ℚ)
    (hv : serviceLevel pp = v) (h1 : ¬ v ≤ 0) (h2 : ¬ 1 ≤ v)
    (h3 : ¬ v < plow) (h4 : ¬ phigh < v) :
    zscore sq lg pp = centralExpr v := by
  unfold zscore invNormalCdf
  rw [hv, if_neg h1, if_neg h2, if_neg h3, if_neg h4]
  rfl

/-- The derived service level of the C2 scenario parameters is `5/6`. -/
theorem serviceLevel_ppC2 : serviceLevel ppC2 = 5/6 := by
  norm_num [serviceLevel, cuOf, coOf, coEffective, protectionWeeks, ppC2, max_def, min_def]

/-- The z-score of the C2 scenario parameters is the central expression at `5/6`. -/
theorem zscore_ppC2 (sq lg : ℚ → ℚ) : zscore sq lg ppC2 = centralExpr (5/6) :=
  zscore_central sq lg ppC2 (5/6) serviceLevel_ppC2 (by norm_num) (by norm_num)
    (by norm_num [plow]) (by norm_num [phigh, plow])

/-- C2: for the single key with `mean 10, std 0`, `lead 1, review 1`,
`shortage 1, holding 0.2`: `protection_weeks = 2`, `co = 0.2`,
`service_level = 1/1.2`, `z ≈ 0.967`, mean over the window `= 20`,
safety `= 0`, so `base_stock = 20` exactly; with `on_hand 5, on_order 0`
the order is exactly 15. -/
theorem c2_base_stock_scenario (sq lg : ℚ → ℚ) (sqrtP : ℚ) :
    protectionWeeks ppC2 = 2 ∧
    coEffective ppC2 = 0.2 ∧
    serviceLevel ppC2 = 1 / 1.2 ∧
    max (10 : ℚ) 0 * ((protectionWeeks ppC2 : ℤ) : ℚ) = 20 ∧
    0.966 < zscore sq lg ppC2 ∧ zscore sq lg ppC2 < 0.968 ∧
    zscore sq lg ppC2 * (max (0 : ℚ) 0 * sqrtP) = 0 ∧
    baseStock sq lg sqrtP ppC2 10 0 = 20 ∧
    computeOrder sq lg sqrtP ppC2 10 0 5 0 = 15 := by
  have hbase : baseStock sq lg sqrtP ppC2 10 0 = 20 := by
    unfold baseStock
    rw [show (max (0:ℚ) 0 * sqrtP) = 0 by norm_num, mul_zero]
    norm_num [protectionWeeks, ppC2, max_def]
  refine ⟨by norm_num [protectionWeeks, ppC2],
    by norm_num [coEffective, protectionWeeks, ppC2, max_def],
    by rw [serviceLevel_ppC2]; norm_num,
    by norm_num [protectionWeeks, ppC2, max_def],
    ?_, ?_, by simp, hbase, ?_⟩
  · rw [zscore_ppC2]; norm_num [centralExpr, centralNum, centralDen]
  · rw [zscore_ppC2]; norm_num [centralExpr, centralNum, centralDen]
  · unfold computeOrder
    rw [hbase]
    norm_num [rawOrder, inventoryPosition, ppC2, rint, max_def]

/-- C3: the order decision is nonnegative for every admissible input (cap
nonnegative when set), is the round-half-to-even rounding of the raw
clipped quantity, and `np.rint` breaks exact halves to the nearest even
integer: `2.5 ↦ 2`, `3.5 ↦ 4`, and in general `n + 1/2` rounds to `n` for
even `n` and `n + 1` for odd `n`. -/
theorem c3_order_nonneg_half_even (sq lg : ℚ → ℚ) (sqrtP : ℚ) (pp : PolicyParams)
    (mean std on_hand on_order : ℚ)
    (hcap : ∀ c : ℚ, pp.max_order_per_item = some c → 0 ≤ c) :
    0 ≤ computeOrder sq lg sqrtP pp mean std on_hand on_order ∧
    computeOrder sq lg sqrtP pp mean std on_hand on_order =
      rint (rawOrder (baseStock sq lg sqrtP pp mean std)
        (inventoryPosition on_hand on_order) pp.max_order_per_item) ∧
    rint (5/2) = 2 ∧ rint (7/2) = 4 ∧
    (∀ n : ℤ, rint ((n : ℚ) + 1/2) = if n % 2 = 0 then n else n + 1) := by
  refine ⟨?_, rfl, by norm_num [rint], by norm_num [rint], rint_half⟩
  apply rint_nonneg
  unfold rawOrder
  cases hc : pp.max_order_per_item with
  | none => exact le_max_right _ 0
  | some c => exact le_min (le_max_right _ 0) (hcap c hc)

/-- Witness for C3: parameters `ppC3` (cap 3), mean 10, std 0, on-hand 5. -/
theorem c3_order_nonneg_half_even_witness :
    0 ≤ computeOrder id id 1 ppC3 10 0 5 0 ∧ rint (5/2) = 2 ∧ rint (7/2) = 4 := by
  obtain ⟨h1, _, h3, h4, _⟩ :=
    c3_order_nonneg_half_even id id 1 ppC3 10 0 5 0
      (fun c hc => by
        have h : (3 : ℚ) = c := by injection hc
        rw [← h]; norm_num)
  exact ⟨h1, h3, h4⟩

/-- C4 counterexample: with the fractional cap `max_order_per_item = 0.7`
(admissible: `≥ 0`, not an integer), mean 10, std 0, on-hand 5, the raw
order is clipped to `0.7` but `np.rint` rounds it up to `1 > 0.7`: the
order exceeds the cap. -/
theorem c4_counterexample :
    ppC4.max_order_per_item = some 0.7 ∧
    computeOrder id id 1 ppC4 10 0 5 0 = 1 ∧
    ¬ (((computeOrder id id 1 ppC4 10 0 5 0 : ℤ) : ℚ) ≤ 0.7) := by
  have hbase : baseStock id id 1 ppC4 10 0 = 10 := by
    unfold baseStock
    rw [show (max (0:ℚ) 0 * 1) = 0 by norm_num, mul_zero]
    norm_num [protectionWeeks, ppC4, max_def]
  have horder : computeOrder id id 1 ppC4 10 0 5 0 = 1 := by
    unfold computeOrder
    rw [hbase]
    norm_num [rawOrder, inventoryPosition, ppC4, rint, max_def, min_def]
  refine ⟨rfl, horder, ?_⟩
  rw [horder]
  norm_num

/-- C4 (amended): when `max_order_per_item = c` is set, every order is at
most `rint c` (the half-to-even rounding of the cap); in particular at most
`c` itself whenever `c` is an integer. -/
theorem c4_cap_amended (sq lg : ℚ → ℚ) (sqrtP : ℚ) (pp : PolicyParams)
    (mean std on_hand on_order : ℚ) (c : ℚ)
    (hc : pp.max_order_per_item = some c) :
    computeOrder sq lg sqrtP pp mean std on_hand on_order ≤ rint c ∧
    (∀ m : ℤ, c = (m : ℚ) →
      computeOrder sq lg sqrtP pp mean std on_hand on_order ≤ m) := by
  have hraw : rawOrder (baseStock sq lg sqrtP pp mean std)
      (inventoryPosition on_hand on_order) pp.max_order_per_item ≤ c := by
    rw [hc]
    exact min_le_right _ _
  have h1 : computeOrder sq lg sqrtP pp mean std on_hand on_order ≤ rint c :=
    rint_mono hraw
  refine ⟨h1, fun m hm => ?_⟩
  rw [hm, rint_intCast] at h1
  exact h1

/-- Witness for C4 (amended): the integral cap 3 of `ppC3`. -/
theorem c4_cap_amended_witness :
    computeOrder id id 1 ppC3 10 0 5 0 ≤ rint 3 ∧
    computeOrder id id 1 ppC3 10 0 5 0 ≤ 3 := by
  obtain ⟨h1, h2⟩ := c4_cap_amended id id 1 ppC3 10 0 5 0 3 rfl
  exact ⟨h1, h2 3 (by norm_num)⟩

/-- The derived service level of the C5 counterexample parameters is `1/6`. -/
theorem serviceLevel_ppC5 : serviceLevel ppC5 = 1/6 := by
  norm_num [serviceLevel, cuOf, coOf, coEffective, protectionWeeks, ppC5, max_def, min_def]

/-- C5 counterexample: with `lead 1, review 0` (so `sqrt(P) = 1` exactly),
`shortage 0.1, holding 1`, the derived service level is `1/6 < 1/2` and the
z-score is negative: raising `std_demand` from 0 to 5 strictly lowers the
base stock, refuting monotonicity in `std_demand`. -/
theorem c5_counterexample :
    ((0 : ℚ) ≤ 5) ∧
    baseStock id id 1 ppC5 10 5 < baseStock id id 1 ppC5 10 0 := by
  have hz : zscore id id ppC5 = centralExpr (1/6) :=
    zscore_central id id ppC5 (1/6) serviceLevel_ppC5 (by norm_num) (by norm_num)
      (by norm_num [plow]) (by norm_num [phigh, plow])
  refine ⟨by norm_num, ?_⟩
  unfold baseStock
  rw [hz]
  norm_num [protectionWeeks, ppC5, centralExpr, centralNum, centralDen, max_def]

/-- C5 (amended): base stock is non-decreasing in `mean_demand` whenever
`protection_weeks ≥ 0`, and non-decreasing in `std_demand` whenever
additionally the z-score is nonnegative (service level at least one half);
for service levels below one half the z-score is negative and the base
stock can strictly decrease in `std_demand`. -/
theorem c5_monotone_amended (sq lg : ℚ → ℚ) (sqrtP : ℚ) (pp : PolicyParams) :
    (∀ mean1 mean2 std : ℚ, 0 ≤ protectionWeeks pp → mean1 ≤ mean2 →
      baseStock sq lg sqrtP pp mean1 std ≤ baseStock sq lg sqrtP pp mean2 std) ∧
    (∀ mean std1 std2 : ℚ, 0 ≤ sqrtP → 0 ≤ zscore sq lg pp → std1 ≤ std2 →
      baseStock sq lg sqrtP pp mean std1 ≤ baseStock sq lg sqrtP pp mean std2) := by
  constructor
  · intro m1 m2 std hP hm
    unfold baseStock
    apply max_le_max _ le_rfl
    apply add_le_add_right
    apply mul_le_mul_of_nonneg_right (max_le_max hm le_rfl)
    exact_mod_cast hP
  · intro mean s1 s2 hs hz h12
    unfold baseStock
    apply max_le_max _ le_rfl
    apply add_le_add_left
    apply mul_le_mul_of_nonneg_left _ hz
    exact mul_le_mul_of_nonneg_right (max_le_max h12 le_rfl) hs

/-- Witness for C5 (amended): the `ppC2` parameters (z-score `≈ 0.967 ≥ 0`). -/
theorem c5_monotone_amended_witness :
    baseStock id id 1 ppC2 5 3 ≤ baseStock id id 1 ppC2 7 3 ∧
    baseStock id id 1 ppC2 5 1 ≤ baseStock id id 1 ppC2 5 4 := by
  have hz : (0 : ℚ) ≤ zscore id id ppC2 := by
    rw [zscore_ppC2]
    norm_num [centralExpr, centralNum, centralDen]
  obtain ⟨h1, h2⟩ := c5_monotone_amended id id 1 ppC2
  exact ⟨h1 5 7 3 (by norm_num [protectionWeeks, ppC2]) (by norm_num),
    h2 5 1 4 (by norm_num) hz (by norm_num)⟩

/-- C9: a key with exactly one weekly observation gets
`std_demand = sq (max mean_demand 0)` (the `fillna` fallback), not a
null/undefined value: the raw sample std is `none` but the aggregated
`std_demand` is the total fallback value, and it equals `sq mean_demand`
whenever the single observed value is nonnegative. -/
theorem c9_single_obs_std (sq : ℚ → ℚ) (v : ℚ) :
    (aggregateKey sq [v]).observations = 1 ∧
    sampleStd sq [v] = none ∧
    (aggregateKey sq [v]).mean_demand = v ∧
    (aggregateKey sq [v]).std_demand = sq (max v 0) := by
  have hmean : meanOf [v] = v := by
    unfold meanOf
    simp
  refine ⟨rfl, rfl, hmean, ?_⟩
  show (sampleStd sq [v]).getD (sq (max (meanOf [v]) 0)) = sq (max v 0)
  rw [hmean]
  rfl

/-! ## Quantile approximator: monotonicity (C6) -/

/-- A certificate term with nonnegative coefficient and two nonnegative bases
is nonnegative. -/
theorem cert_term2_nonneg {u v : ℚ} (hu : 0 ≤ u) (hv : 0 ≤ v) {c : ℚ}
    (hc : 0 ≤ c) {p q : ℕ} : 0 ≤ c * u ^ p * v ^ q :=
  mul_nonneg (mul_nonneg hc (pow_nonneg hu p)) (pow_nonneg hv q)

/-- Row 0 of the central certificate is nonnegative on the nonnegative
quadrant. -/
theorem WcertRow0_nonneg {s t : ℚ} (hs : 0 ≤ s) (ht : 0 ≤ t) :
    0 ≤ WcertRow0 s t := by
  unfold WcertRow0
  repeat' first
    | apply add_nonneg
    | exact cert_term2_nonneg hs ht (by norm_num)

/-- Row 1 of the central certificate is nonnegative on the nonnegative
quadrant. -/
theorem WcertRow1_nonneg {s t : ℚ} (hs : 0 ≤ s) (ht : 0 ≤ t) :
    0 ≤ WcertRow1 s t := by
  unfold WcertRow1
  repeat' first
    | apply add_nonneg
    | exact cert_term2_nonneg hs ht (by norm_num)

/-- Row 2 of the central certificate is nonnegative on the nonnegative
quadrant. -/
theorem WcertRow2_nonneg {s t : ℚ} (hs : 0 ≤ s) (ht : 0 ≤ t) :
    0 ≤ WcertRow2 s t := by
  unfold WcertRow2
  repeat' first
    | apply add_nonneg
    | exact cert_term2_nonneg hs ht (by norm_num)

/-- Row 3 of the central certificate is nonnegative on the nonnegative
quadrant. -/
theorem WcertRow3_nonneg {s t : ℚ} (hs : 0 ≤ s) (ht : 0 ≤ t) :
    0 ≤ WcertRow3 s t := by
  unfold WcertRow3
  repeat' first
    | apply add_nonneg
    | exact cert_term2_nonneg hs ht (by norm_num)

/-- Row 4 of the central certificate is nonnegative on the nonnegative
quadrant. -/
theorem WcertRow4_nonneg {s t : ℚ} (hs : 0 ≤ s) (ht : 0 ≤ t) :
    0 ≤ WcertRow4 s t := by
  unfold WcertRow4
  repeat' first
    | apply add_nonneg
    | exact cert_term2_nonneg hs ht (by norm_num)

/-- Row 5 of the central certificate is nonnegative on the nonnegative
quadrant. -/
theorem WcertRow5_nonneg {s t : ℚ} (hs : 0 ≤ s) (ht : 0 ≤ t) :
    0 ≤ WcertRow5 s t := by
  unfold WcertRow5
  repeat' first
    | apply add_nonneg
    | exact cert_term2_nonneg hs ht (by norm_num)

/-- Row 6 of the central certificate is nonnegative on the nonnegative
quadrant. -/
theorem WcertRow6_nonneg {s t : ℚ} (hs : 0 ≤ s) (ht : 0 ≤ t) :
    0 ≤ WcertRow6 s t := by
  unfold WcertRow6
  repeat' first
    | apply add_nonneg
    | exact cert_term2_nonneg hs ht (by norm_num)

/-- Row 7 of the central certificate is nonnegative on the nonnegative
quadrant. -/
theorem WcertRow7_nonneg {s t : ℚ} (hs : 0 ≤ s) (ht : 0 ≤ t) :
    0 ≤ WcertRow7 s t := by
  unfold WcertRow7
  repeat' first
    | apply add_nonneg
    | exact cert_term2_nonneg hs ht (by norm_num)

/-- Row 8 of the central certificate is nonnegative on the nonnegative
quadrant. -/
theorem WcertRow8_nonneg {s t : ℚ} (hs : 0 ≤ s) (ht : 0 ≤ t) :
    0 ≤ WcertRow8 s t := by
  unfold WcertRow8
  repeat' first
    | apply add_nonneg
    | exact cert_term2_nonneg hs ht (by norm_num)

/-- Row 9 of the central certificate is nonnegative on the nonnegative
quadrant. -/
theorem WcertRow9_nonneg {s t : ℚ} (hs : 0 ≤ s) (ht : 0 ≤ t) :
    0 ≤ WcertRow9 s t := by
  unfold WcertRow9
  repeat' first
    | apply add_nonneg
    | exact cert_term2_nonneg hs ht (by norm_num)

/-- Row 10 of the central certificate is nonnegative on the nonnegative
quadrant. -/
theorem WcertRow10_nonneg {s t : ℚ} (hs : 0 ≤ s) (ht : 0 ≤ t) :
    0 ≤ WcertRow10 s t := by
  unfold WcertRow10
  repeat' first
    | apply add_nonneg
    | exact cert_term2_nonneg hs ht (by norm_num)

/-- The central certificate is strictly positive when `u + v = s + t = 2 qlC`
with all four arguments nonnegative (i.e. on the closed central box). -/
theorem Wcert_pos {u v s t : ℚ} (hu : 0 ≤ u) (hv : 0 ≤ v) (hs : 0 ≤ s)
    (ht : 0 ≤ t) (huv : u + v = 2 * qlC) (hst : s + t = 2 * qlC) :
    0 < Wcert u v s t := by
  unfold Wcert
  rw [huv, hst]
  repeat' apply add_pos_of_pos_of_nonneg
  · norm_num [qlC]
  · exact mul_nonneg (mul_nonneg (pow_nonneg hu _) (pow_nonneg hv _)) (WcertRow0_nonneg hs ht)
  · exact mul_nonneg (mul_nonneg (pow_nonneg hu _) (pow_nonneg hv _)) (WcertRow1_nonneg hs ht)
  · exact mul_nonneg (mul_nonneg (pow_nonneg hu _) (pow_nonneg hv _)) (WcertRow2_nonneg hs ht)
  · exact mul_nonneg (mul_nonneg (pow_nonneg hu _) (pow_nonneg hv _)) (WcertRow3_nonneg hs ht)
  · exact mul_nonneg (mul_nonneg (pow_nonneg hu _) (pow_nonneg hv _)) (WcertRow4_nonneg hs ht)
  · exact mul_nonneg (mul_nonneg (pow_nonneg hu _) (pow_nonneg hv _)) (WcertRow5_nonneg hs ht)
  · exact mul_nonneg (mul_nonneg (pow_nonneg hu _) (pow_nonneg hv _)) (WcertRow6_nonneg hs ht)
  · exact mul_nonneg (mul_nonneg (pow_nonneg hu _) (pow_nonneg hv _)) (WcertRow7_nonneg hs ht)
  · exact mul_nonneg (mul_nonneg (pow_nonneg hu _) (pow_nonneg hv _)) (WcertRow8_nonneg hs ht)
  · exact mul_nonneg (mul_nonneg (pow_nonneg hu _) (pow_nonneg hv _)) (WcertRow9_nonneg hs ht)
  · exact mul_nonneg (mul_nonneg (pow_nonneg hu _) (pow_nonneg hv _)) (WcertRow10_nonneg hs ht)

set_option maxHeartbeats 4000000 in
/-- Clearing denominators, the two-point difference of the central branch
factors through the positivity certificate. -/
theorem central_G_cert (x y : ℚ) :
    (2 * qlC) ^ 20 *
      (centralNum (y * y) * y * centralDen (x * x) -
        centralNum (x * x) * x * centralDen (y * y)) =
    (y - x) * Wcert (x + qlC) (qlC - x) (y + qlC) (qlC - y) := by
  unfold qlC centralNum centralDen Wcert
  unfold WcertRow0 WcertRow1 WcertRow2 WcertRow3 WcertRow4 WcertRow5
  unfold WcertRow6 WcertRow7 WcertRow8 WcertRow9 WcertRow10
  ring

/-- Clearing denominators, `centralDen` on `[0, qlC^2]` equals the Bernstein
certificate `Bcert`. -/
theorem centralDen_cert (r : ℚ) :
    (qlC * qlC) ^ 5 * centralDen r = Bcert r (qlC * qlC - r) := by
  unfold qlC centralDen Bcert
  ring

/-- The denominator certificate is strictly positive on its interval. -/
theorem Bcert_pos {u v : ℚ} (hu : 0 ≤ u) (hv : 0 ≤ v)
    (huv : u + v = qlC * qlC) : 0 < Bcert u v := by
  unfold Bcert
  rw [huv]
  repeat' apply add_pos_of_pos_of_nonneg
  all_goals first
    | exact cert_term2_nonneg hu hv (by norm_num)
    | norm_num [qlC]

/-- The central denominator polynomial is strictly positive on `[0, qlC^2]`. -/
theorem centralDen_pos {r : ℚ} (h0 : 0 ≤ r) (h1 : r ≤ qlC * qlC) :
    0 < centralDen r := by
  have hb : 0 < Bcert r (qlC * qlC - r) :=
    Bcert_pos h0 (by linarith) (by ring)
  have hc := centralDen_cert r
  have h5 : (0 : ℚ) < (qlC * qlC) ^ 5 := by norm_num [qlC]
  by_contra hneg
  push_neg at hneg
  have hmul : (qlC * qlC) ^ 5 * centralDen r ≤ (qlC * qlC) ^ 5 * 0 :=
    mul_le_mul_of_nonneg_left hneg h5.le
  rw [mul_zero] at hmul
  linarith [hc ▸ hmul]

/-- The central branch of the quantile approximation is strictly increasing
on `[plow, phigh]`. -/
theorem centralExpr_mono {p1 p2 : ℚ} (h1 : plow ≤ p1) (h12 : p1 < p2)
    (h2 : p2 ≤ phigh) : centralExpr p1 < centralExpr p2 := by
  have h1' : (0.02425 : ℚ) ≤ p1 := by rw [← show plow = (0.02425 : ℚ) from rfl]; exact h1
  have h2' : p2 ≤ 1 - 0.02425 := by
    rw [← show phigh = 1 - (0.02425 : ℚ) from by norm_num [phigh, plow]]; exact h2
  set x := p1 - 1/2 with hxdef
  set y := p2 - 1/2 with hydef
  have hxl : -qlC ≤ x := by rw [hxdef]; norm_num [qlC]; linarith
  have hxu : x ≤ qlC := by rw [hxdef]; norm_num [qlC]; linarith
  have hyl : -qlC ≤ y := by rw [hydef]; norm_num [qlC]; linarith
  have hyu : y ≤ qlC := by rw [hydef]; norm_num [qlC]; linarith
  have hxy : x < y := by rw [hxdef, hydef]; linarith
  have hBx : 0 < centralDen (x * x) :=
    centralDen_pos (mul_self_nonneg x) (by nlinarith)
  have hBy : 0 < centralDen (y * y) :=
    centralDen_pos (mul_self_nonneg y) (by nlinarith)
  have hW : 0 < Wcert (x + qlC) (qlC - x) (y + qlC) (qlC - y) :=
    Wcert_pos (by linarith) (by linarith) (by linarith) (by linarith)
      (by ring) (by ring)
  have hpos : 0 < (y - x) * Wcert (x + qlC) (qlC - x) (y + qlC) (qlC - y) :=
    mul_pos (by linarith) hW
  have hkey := central_G_cert x y
  unfold centralExpr
  rw [← hxdef, ← hydef, div_lt_div_iff₀ hBx hBy]
  by_contra hle
  push_neg at hle
  have hscale : (0 : ℚ) ≤ (2 * qlC) ^ 20 := by norm_num [qlC]
  have hmul : (2 * qlC) ^ 20 *
      (centralNum (y * y) * y * centralDen (x * x) -
        centralNum (x * x) * x * centralDen (y * y)) ≤ (2 * qlC) ^ 20 * 0 :=
    mul_le_mul_of_nonneg_left (by linarith) hscale
  rw [mul_zero] at hmul
  rw [hkey] at hmul
  linarith

/-- The tail denominator is strictly positive for nonnegative arguments. -/
theorem tailDen_pos {q : ℚ} (hq : 0 ≤ q) : 0 < tailDen q := by
  unfold tailDen
  have h2 : 0 ≤ q * q := mul_nonneg hq hq
  have h3 : 0 ≤ q * q * q := mul_nonneg h2 hq
  have h4 : 0 ≤ q * q * q * q := mul_nonneg h3 hq
  nlinarith [hq, h2, h3, h4]

/-- Clearing denominators, the two-point difference of the tail branch at
`qstar + s, qstar + t` factors through the negativity certificate. -/
theorem tail_S_cert (s t : ℚ) :
    tailNum (qstar + t) * tailDen (qstar + s) -
      tailNum (qstar + s) * tailDen (qstar + t) = (t - s) * Scert s t := by
  unfold tailNum tailDen Scert qstar
  ring

/-- The tail certificate is strictly negative on the nonnegative quadrant. -/
theorem Scert_neg {s t : ℚ} (hs : 0 ≤ s) (ht : 0 ≤ t) : Scert s t < 0 := by
  unfold Scert
  have hsum : (0:ℚ) <
      ((76915967916547538239997281144613462146755223142391144348141696412665971686184190146735236801496135434846693857103120983 : ℚ) / 50000000000000000000000000000000000000000000000000000000000000000000000000000000000000000000000000000000000000000000) * s ^ 0 * t ^ 0 := by
    norm_num
  rw [neg_lt_zero]
  repeat' apply add_pos_of_pos_of_nonneg
  all_goals first
    | exact hsum
    | exact cert_term2_nonneg hs ht (by norm_num)

/-- The tail branch is strictly decreasing in `q` on `[qstar, ∞)`. -/
theorem tailExpr_anti {x y : ℚ} (hx : qstar ≤ x) (hxy : x < y) :
    tailExpr y < tailExpr x := by
  have hx0 : 0 ≤ x := le_trans (by norm_num [qstar]) hx
  have hy0 : 0 ≤ y := by linarith
  have hDx := tailDen_pos hx0
  have hDy := tailDen_pos hy0
  unfold tailExpr
  rw [div_lt_div_iff₀ hDy hDx]
  have hs : 0 ≤ x - qstar := by linarith
  have ht : 0 ≤ y - qstar := by linarith
  have hid := tail_S_cert (x - qstar) (y - qstar)
  rw [show qstar + (x - qstar) = x from by ring,
    show qstar + (y - qstar) = y from by ring] at hid
  have hS := Scert_neg hs ht
  have hneg : (y - qstar - (x - qstar)) * Scert (x - qstar) (y - qstar) < 0 :=
    mul_neg_of_pos_of_neg (by linarith) hS
  linarith [hid ▸ hneg]

/-- The tail branch on `[qstar, ∞)` never exceeds its value at `qstar`. -/
theorem tailExpr_le {x : ℚ} (hx : qstar ≤ x) : tailExpr x ≤ tailExpr qstar := by
  rcases eq_or_lt_of_le hx with h | h
  · rw [← h]
  · exact (tailExpr_anti le_rfl h).le

/-- The low-tail branch stays strictly below the central branch: its supremum
`tailExpr qstar` is below `centralExpr plow` (exact rational comparison, the
margin is about `4.3e-9`). -/
theorem tail_lt_central_at_plow : tailExpr qstar < centralExpr plow := by
  norm_num [tailExpr, tailNum, tailDen, centralExpr, centralNum, centralDen, qstar, plow]

/-- The central branch is negative at the left edge of its region. -/
theorem central_plow_neg : centralExpr plow < 0 := by
  norm_num [centralExpr, centralNum, centralDen, plow]

/-- The central branch is antisymmetric about `p = 1/2`. -/
theorem centralExpr_reflect (p : ℚ) : centralExpr (1 - p) = -centralExpr p := by
  unfold centralExpr
  rw [show (1 - p - 1/2) = -(p - 1/2) from by ring]
  rw [show (-(p - 1/2)) * (-(p - 1/2)) = (p - 1/2) * (p - 1/2) from by ring]
  rw [mul_neg, neg_div]

/-- Value of the quantile approximator on the low tail. -/
theorem quantileD_tail {sq lg : ℚ → ℚ} {p : ℚ} (h0 : 0 < p) (hp : p < plow) :
    quantileD sq lg p = tailExpr (sq (-2 * lg p)) := by
  have hp1 : p < 1 := lt_trans hp (by norm_num [plow])
  unfold quantileD invNormalCdf
  rw [if_neg (not_le.mpr h0), if_neg (not_le.mpr hp1), if_pos hp]
  rfl

/-- Value of the quantile approximator on the central region. -/
theorem quantileD_central {sq lg : ℚ → ℚ} {p : ℚ} (h1 : plow ≤ p)
    (h2 : p ≤ phigh) : quantileD sq lg p = centralExpr p := by
  have hp0 : 0 < p := lt_of_lt_of_le (by norm_num [plow]) h1
  have hp1 : p < 1 := lt_of_le_of_lt h2 (by norm_num [phigh, plow])
  unfold quantileD invNormalCdf
  rw [if_neg (not_le.mpr hp0), if_neg (not_le.mpr hp1), if_neg (not_lt.mpr h1),
    if_neg (not_lt.mpr h2)]
  rfl

/-- Value of the quantile approximator on the high tail. -/
theorem quantileD_high {sq lg : ℚ → ℚ} {p : ℚ} (h1 : phigh < p) (h2 : p < 1) :
    quantileD sq lg p = -(tailExpr (sq (-2 * lg (1 - p)))) := by
  have hph : phigh = 1 - plow := rfl
  have hp0 : 0 < p := lt_trans (by norm_num [phigh, plow]) h1
  have hnotlow : ¬ p < plow := by
    rw [hph] at h1
    have : (0:ℚ) < 1 - plow := by norm_num [plow]
    intro hcon
    have hplow : plow < 1/2 := by norm_num [plow]
    linarith
  unfold quantileD invNormalCdf
  rw [if_neg (not_le.mpr hp0), if_neg (not_le.mpr h2), if_neg hnotlow, if_pos h1]
  rfl

/-- C6: the quantile approximator is strictly increasing in `p` on the whole
open interval `(0,1)` — within the low tail, across the low boundary
`p = 0.02425`, through the central region, across the high boundary, and
within the high tail — and `quantile(0.5) = 0`.  The embedding abstracts
`math.sqrt`/`math.log`; the two hypotheses state the facts used about the
composite `p ↦ sqrt(-2 log p)` on the low tail: it is strictly decreasing
and bounded below by `qstar = 2.7273938701`, a rational lower bound of its
infimum `sqrt(-2 ln 0.02425) = 2.72739387019867…`. -/
theorem c6_quantile_monotone (sq lg : ℚ → ℚ)
    (hg_lb : ∀ p : ℚ, 0 < p → p < plow → qstar ≤ sq (-2 * lg p))
    (hg_anti : ∀ p1 p2 : ℚ, 0 < p1 → p1 < p2 → p2 < plow →
      sq (-2 * lg p2) < sq (-2 * lg p1)) :
    (∀ p1 p2 : ℚ, 0 < p1 → p1 < p2 → p2 < 1 →
      quantileD sq lg p1 < quantileD sq lg p2) ∧
    invNormalCdf sq lg (1/2) = some 0 := by
  have hph : phigh = 1 - plow := rfl
  have hplow_num : plow = 0.02425 := rfl
  constructor
  · intro p1 p2 h0 h12 h2
    have hb1 : tailExpr qstar < centralExpr plow := tail_lt_central_at_plow
    rcases lt_or_le p1 plow with hp1low | hp1ge
    · -- p1 in the low tail
      have hq1 : qstar ≤ sq (-2 * lg p1) := hg_lb p1 h0 hp1low
      have hv1 : quantileD sq lg p1 = tailExpr (sq (-2 * lg p1)) :=
        quantileD_tail h0 hp1low
      have h1le : tailExpr (sq (-2 * lg p1)) ≤ tailExpr qstar := tailExpr_le hq1
      rcases lt_or_le p2 plow with hp2low | hp2ge
      · -- both in the low tail
        have hq2 : qstar ≤ sq (-2 * lg p2) := hg_lb p2 (by linarith) hp2low
        have hlt : sq (-2 * lg p2) < sq (-2 * lg p1) := hg_anti p1 p2 h0 h12 hp2low
        rw [hv1, quantileD_tail (by linarith) hp2low]
        exact tailExpr_anti hq2 hlt
      · rcases le_or_lt p2 phigh with hp2c | hp2high
        · -- p1 tail, p2 central
          rw [hv1, quantileD_central hp2ge hp2c]
          have hc2 : centralExpr plow ≤ centralExpr p2 := by
            rcases eq_or_lt_of_le hp2ge with he | hlt2
            · rw [← he]
            · exact (centralExpr_mono le_rfl hlt2 hp2c).le
          linarith
        · -- p1 tail, p2 high tail
          have h2v : quantileD sq lg p2 = -(tailExpr (sq (-2 * lg (1 - p2)))) :=
            quantileD_high hp2high h2
          have ha : 0 < 1 - p2 := by linarith
          have hb : 1 - p2 < plow := by rw [hph] at hp2high; linarith
          have hq2 : qstar ≤ sq (-2 * lg (1 - p2)) := hg_lb _ ha hb
          have h2le : tailExpr (sq (-2 * lg (1 - p2))) ≤ tailExpr qstar :=
            tailExpr_le hq2
          have hcneg : centralExpr plow < 0 := central_plow_neg
          rw [hv1, h2v]
          linarith
    · rcases le_or_lt p1 phigh with hp1c | hp1high
      · -- p1 central
        have hv1 : quantileD sq lg p1 = centralExpr p1 := quantileD_central hp1ge hp1c
        rcases le_or_lt p2 phigh with hp2c | hp2high
        · -- both central
          rw [hv1, quantileD_central (by linarith) hp2c]
          exact centralExpr_mono hp1ge h12 hp2c
        · -- p1 central, p2 high tail
          have h2v : quantileD sq lg p2 = -(tailExpr (sq (-2 * lg (1 - p2)))) :=
            quantileD_high hp2high h2
          have ha : 0 < 1 - p2 := by linarith
          have hb : 1 - p2 < plow := by rw [hph] at hp2high; linarith
          have hq2 : qstar ≤ sq (-2 * lg (1 - p2)) := hg_lb _ ha hb
          have h2le : tailExpr (sq (-2 * lg (1 - p2))) ≤ tailExpr qstar :=
            tailExpr_le hq2
          have hcen1 : centralExpr p1 ≤ centralExpr phigh := by
            rcases eq_or_lt_of_le hp1c with he | hlt1
            · rw [he]
            · exact (centralExpr_mono hp1ge hlt1 le_rfl).le
          have hrefl : centralExpr phigh = -centralExpr plow := by
            rw [hph]
            exact centralExpr_reflect plow
          rw [hv1, h2v]
          linarith
      · -- both in the high tail
        have h1v : quantileD sq lg p1 = -(tailExpr (sq (-2 * lg (1 - p1)))) :=
          quantileD_high hp1high (by linarith)
        have h2v : quantileD sq lg p2 = -(tailExpr (sq (-2 * lg (1 - p2)))) :=
          quantileD_high (by linarith) h2
        have ha1 : 0 < 1 - p1 := by linarith
        have ha2 : 0 < 1 - p2 := by linarith
        have hb1' : 1 - p1 < plow := by rw [hph] at hp1high; linarith
        have hq1' : qstar ≤ sq (-2 * lg (1 - p1)) := hg_lb _ ha1 hb1'
        have hlt : sq (-2 * lg (1 - p1)) < sq (-2 * lg (1 - p2)) :=
          hg_anti (1 - p2) (1 - p1) ha2 (by linarith) hb1'
        have := tailExpr_anti hq1' hlt
        rw [h1v, h2v]
        linarith
  · -- quantile(0.5) = 0
    have hc : centralExpr (1/2) = 0 := by
      norm_num [centralExpr, centralNum, centralDen]
    unfold invNormalCdf
    rw [if_neg (by norm_num), if_neg (by norm_num),
      if_neg (by norm_num [plow]), if_neg (by norm_num [phigh, plow]), hc]

/-- Witness for C6: rational stand-ins `sqW`, `lgW` whose composite
`p ↦ sqW (-2 lgW p) = qstar + plow - p` satisfies both tail hypotheses. -/
theorem c6_quantile_monotone_witness :
    quantileD sqW lgW (1/100) < quantileD sqW lgW (1/2) ∧
    quantileD sqW lgW (1/2) < quantileD sqW lgW (199/200) ∧
    invNormalCdf sqW lgW (1/2) = some 0 := by
  have hcomp : ∀ p : ℚ, sqW (-2 * lgW p) = qstar + plow - p := by
    intro p
    unfold sqW lgW
    ring
  obtain ⟨hm, h0⟩ := c6_quantile_monotone sqW lgW
    (fun p hp hplow => by rw [hcomp p]; linarith)
    (fun p1 p2 h1 h12 h2 => by rw [hcomp p1, hcomp p2]; linarith)
  exact ⟨hm _ _ (by norm_num) (by norm_num) (by norm_num),
    hm _ _ (by norm_num) (by norm_num) (by norm_num), h0⟩
